import Mathlib

/-!
Verification of the formatting/filtering core of
`koishi-plugin-serverinfo-rest-client` (src/src/commands/player.ts and
src/index.ts).  The TypeScript functions are shallowly embedded as Lean
functions over explicit data:

* JS strings are Lean `String`s (lists of Unicode scalar values).
* JS numbers that the formatter prints with `toFixed(2)` are modelled as
  integers counting hundredths (packet-loss fractions, which the code
  multiplies by 100 before `toFixed(2)`, count hundredths of a percent);
  integral JS numbers are plain `Int`.
* Values the code tests for truthiness/presence (`player.pos`,
  `player.device`, `player.speed`, ...) are `Option`s.
* `JSON.stringify` of the hand/off-hand item objects is modelled by storing
  the serialized string itself; an armor list stores its elements'
  serializations.
* `new Date().toLocaleString('zh-CN')` inside `generateTypstCode` is
  modelled as an explicit `timestamp` argument (last parameter), and the
  image-rendering pipeline inside the command action is modelled as an
  explicit `Except`-valued function.
-/

namespace ServerinfoRest

/-! ## String helpers (JS semantics) -/

theorem strDataAppend (a b : String) : (a ++ b).data = a.data ++ b.data := rfl

theorem strExt (a b : String) (h : a.data = b.data) : a = b := by
  cases a; cases b; exact congrArg String.mk h

theorem strMkData (l : List Char) : (String.mk l).data = l := rfl

theorem strMkDataEta (s : String) : String.mk s.data = s := rfl

theorem strAssoc (a b c : String) : a ++ b ++ c = a ++ (b ++ c) := by
  apply strExt
  simp [strDataAppend]

theorem strAppendEmpty (a : String) : a ++ "" = a := by
  apply strExt
  simp [strDataAppend]

theorem strLeftCancel (a b c : String) (h : a ++ b = a ++ c) : b = c := by
  apply strExt
  have hd := congrArg String.data h
  simp only [strDataAppend] at hd
  exact List.append_cancel_left hd

/-- `take` of an append stays in the left part when it is long enough. -/
theorem takeAppendOfLe {α : Type} (n : Nat) (l₁ l₂ : List α) (h : n ≤ l₁.length) :
    (l₁ ++ l₂).take n = l₁.take n := by
  induction l₁ generalizing n with
  | nil => cases n <;> simp_all
  | cons a t ih =>
    cases n with
    | zero => simp
    | succ m => simp [List.take_succ_cons, ih m (by simpa using h)]

/-- Two appends with distinguishable literal prefixes are distinct strings. -/
theorem appendNeOfTakeNe (p q u v : String) (k : Nat)
    (hp : k ≤ p.data.length) (hq : k ≤ q.data.length)
    (hne : p.data.take k ≠ q.data.take k) : p ++ u ≠ q ++ v := by
  intro h
  apply hne
  have hd := congrArg String.data h
  simp only [strDataAppend] at hd
  have := congrArg (List.take k) hd
  rwa [takeAppendOfLe k _ _ hp, takeAppendOfLe k _ _ hq] at this

theorem headAppendOfHead (p u : String) (c : Char) (h : p.data.head? = some c) :
    (p ++ u).data.head? = some c := by
  rw [strDataAppend]
  cases hp : p.data with
  | nil => rw [hp] at h; simp at h
  | cons a t => rw [hp] at h; simp at h; simp [hp, h]

theorem neOfHeadNe (a b : String) (c d : Char)
    (ha : a.data.head? = some c) (hb : b.data.head? = some d) (hcd : c ≠ d) :
    a ≠ b := by
  intro h
  rw [h] at ha
  rw [ha] at hb
  exact hcd (by injection hb)

theorem memAppendChar (c : Char) (a b : String) (h : c ∈ b.data) :
    c ∈ (a ++ b).data := by
  rw [strDataAppend]
  exact List.mem_append_right _ h

/-- JS `arr.join(sep)`. -/
def joinSep (sep : String) : List String → String
  | [] => ""
  | [a] => a
  | a :: b :: rest => a ++ sep ++ joinSep sep (b :: rest)

theorem joinSepCons (sep a : String) (rest : List String) :
    ∃ x, joinSep sep (a :: rest) = a ++ x := by
  cases rest with
  | nil => exact ⟨"", (strAppendEmpty a).symm⟩
  | cons b t => exact ⟨sep ++ joinSep sep (b :: t), by rw [joinSep, strAssoc]⟩

/-- JS `String.prototype.trimEnd`, on the usual whitespace class. -/
def jsTrimEnd (s : String) : String :=
  ⟨(s.data.reverse.dropWhile Char.isWhitespace).reverse⟩

/-- A conditionally pushed element (`if (c) list.push(x)` in the source). -/
def pushIf (c : Bool) (s : String) : List String := if c then [s] else []

theorem memPushIf (x : String) (c : Bool) (s : String) :
    x ∈ pushIf c s ↔ c = true ∧ x = s := by
  cases c <;> simp [pushIf]

/-- Lines contributed by an optional nested record (`if (player.sub) ...`). -/
def optList {α : Type} (o : Option α) (f : α → List String) : List String :=
  match o with
  | some a => f a
  | none => []

theorem memOptList {α : Type} (x : String) (o : Option α) (f : α → List String) :
    x ∈ optList o f ↔ ∃ a, o = some a ∧ x ∈ f a := by
  cases o <;> simp [optList]

/-! ## Numeric rendering

`toFixed2` renders an integer number of hundredths the way JS
`Number.prototype.toFixed(2)` prints the corresponding decimal value. -/

def pad2 (k : Nat) : String := if k < 10 then "0" ++ toString k else toString k

def toFixed2 (n : Int) : String :=
  (if n < 0 then "-" else "") ++ toString (n.natAbs / 100) ++ "." ++ pad2 (n.natAbs % 100)

/-! ## Data model (the `PlayerInfo` record of player.ts) -/

structure Position where
  x : Int
  y : Int
  z : Int
  dimId : Option Int
  deriving DecidableEq, Repr

structure BlockPosition where
  x : Int
  y : Int
  z : Int
  deriving DecidableEq, Repr

structure Biome where
  id : Int
  name : String
  deriving DecidableEq, Repr

structure BlockInfo where
  type : String
  name : String
  deriving DecidableEq, Repr

structure DeviceInfo where
  ip : String
  os : String
  clientId : String
  inputMode : Int
  serverAddress : String
  avgPing : Int
  avgPacketLoss : Int
  lastPing : Int
  lastPacketLoss : Int
  deriving DecidableEq, Repr

structure PlayerInfo where
  name : String
  xuid : String
  uuid : String
  uniqueId : String
  permLevel : Int
  gameMode : Int
  isOP : Bool
  isSimulatedPlayer : Bool
  health : Int
  maxHealth : Int
  pos : Option Position
  blockPos : Option BlockPosition
  feetPos : Option Position
  lastDeathPos : Option Position
  respawnPos : Option Position
  speed : Option Int
  biome : Option Biome
  standingOn : Option BlockInfo
  isFlying : Bool
  isSneaking : Bool
  isSprinting : Bool
  isMoving : Bool
  isInAir : Bool
  isInWater : Bool
  isInLava : Bool
  isOnGround : Bool
  isOnFire : Bool
  isSleeping : Bool
  isGliding : Bool
  isRiding : Bool
  isInvisible : Bool
  isHungry : Bool
  canFly : Bool
  level : Int
  currentExp : Int
  totalExp : Int
  expNeededForNextLevel : Int
  handItem : Option String
  offHandItem : Option String
  armor : Option (List String)
  tags : Option (List String)
  device : Option DeviceInfo
  langCode : String
  deriving DecidableEq, Repr

/-- One entry of `cfg.playerFieldFilters`. -/
structure FieldFilter where
  key : String
  enabled : Bool
  deriving DecidableEq, Repr

/-- Output mode enumeration (`OutputMode` in config.ts). -/
inductive OutputMode where
  | text
  | typstImage
  deriving DecidableEq, Repr

/-- The slice of the plugin `Config` consumed by the player command.
An absent `playerFieldFilters` is the empty list. -/
structure Config where
  playerFieldFilters : List FieldFilter
  defaultOutputModes : List OutputMode
  deriving DecidableEq, Repr

/-! ## Field Visibility Resolver (`isFieldEnabled`) -/

def isFieldEnabled (cfg : Config) (key : String) : Bool :=
  match cfg.playerFieldFilters.find? (fun f => f.key == key) with
  | some f => f.enabled
  | none => true

/-! ## Lookup Tables -/

def INPUT_MODE_MAP : List (Int × String) :=
  [(1, "⌨️ 键鼠"), (2, "📱 触屏"), (3, "🎮 手柄")]

def DIMENSION_MAP : List (Int × String) :=
  [(0, "🌍 主世界"), (1, "🔥 下界"), (2, "🌌 末地")]

def GAMEMODE_MAP : List (Int × String) :=
  [(0, "🗡️ 生存"), (1, "🎨 创造"), (2, "🎯 冒险"), (3, "👁️ 旁观")]

def PERM_LEVEL_MAP : List (Int × String) :=
  [(0, "👤 成员"), (1, "⭐ 操作员"), (2, "👑 管理员"), (3, "🛡️ 服主")]

/-- `MAP[code] || fallback`: a missing key, or a falsy (empty) value, yields
the fallback string embedding the raw code. -/
def lookupLabel (table : List (Int × String)) (code : Int) (fallback : String) : String :=
  match table.find? (fun kv => kv.1 == code) with
  | some kv => if kv.2 = "" then fallback else kv.2
  | none => fallback

def getDimension (dimId : Int) : String :=
  lookupLabel DIMENSION_MAP dimId ("❓ 未知 (" ++ toString dimId ++ ")")

def getGameMode (mode : Int) : String :=
  lookupLabel GAMEMODE_MAP mode ("❓ 未知 (" ++ toString mode ++ ")")

def getPermLevel (level : Int) : String :=
  lookupLabel PERM_LEVEL_MAP level ("❓ 未知 (" ++ toString level ++ ")")

def getInputMode (mode : Int) : String :=
  lookupLabel INPUT_MODE_MAP mode ("❓ 未知 (" ++ toString mode ++ ")")

/-- `getDimension(pos.dimId)` where `dimId?` may be absent: JS indexes the
table with `undefined`, misses, and interpolates `undefined` into the
fallback. -/
def getDimensionOpt (dimId : Option Int) : String :=
  match dimId with
  | some d => getDimension d
  | none => "❓ 未知 (undefined)"

/-! ## Escaping routine (`escapeTypstText` in index.ts)

The source applies fourteen global `String.replace` passes in a fixed
order.  Each pass is a per-character substitution, modelled by `replL`. -/

def replL (c : Char) (r : List Char) (l : List Char) : List Char :=
  l.flatMap (fun x => if x = c then r else [x])

/-- The backtick character (written via its code point). -/
def btk : Char := Char.ofNat 96

/-- The fourteen replacement passes of `escapeTypstText`, innermost first,
in the exact source order: backslash, `[`, `]`, `#`, `$`, backtick, `*`,
`_`, `<`, `>`, `@`, then newline to space, carriage return to nothing,
tab to space. -/
def escapeL (l : List Char) : List Char :=
  replL '\t' [' ']
    (replL '\r' []
      (replL '\n' [' ']
        (replL '@' ['\\', '@']
          (replL '>' ['\\', '>']
            (replL '<' ['\\', '<']
              (replL '_' ['\\', '_']
                (replL '*' ['\\', '*']
                  (replL btk ['\\', btk]
                    (replL '$' ['\\', '$']
                      (replL '#' ['\\', '#']
                        (replL ']' ['\\', ']']
                          (replL '[' ['\\', '[']
                            (replL '\\' ['\\', '\\'] l)))))))))))))

def escapeTypstText (s : String) : String := ⟨escapeL s.data⟩

theorem escapeTypstTextEq (s : String) : escapeTypstText s = String.mk (escapeL s.data) := rfl

theorem escapeTypstTextData (s : String) : (escapeTypstText s).data = escapeL s.data := by
  rw [escapeTypstTextEq]

/-- The eleven characters the escaping contract protects. -/
def isSpecial (c : Char) : Bool :=
  c == '\\' || c == '[' || c == ']' || c == '#' || c == '$' || c == btk ||
    c == '*' || c == '_' || c == '<' || c == '>' || c == '@'

/-- One-pass per-character semantics of the escaping (the contract of
§4.4 of the spec, against which the sequential implementation is
compared): specials get a backslash prefix, newline and tab become one
space, carriage return is dropped, everything else is kept. -/
def escCharSpec (c : Char) : List Char :=
  if isSpecial c then ['\\', c]
  else if c = '\n' ∨ c = '\t' then [' ']
  else if c = '\r' then []
  else [c]

theorem replLAppend (c : Char) (r : List Char) (a b : List Char) :
    replL c r (a ++ b) = replL c r a ++ replL c r b := by
  simp [replL]

theorem escapeLAppend (a b : List Char) :
    escapeL (a ++ b) = escapeL a ++ escapeL b := by
  simp [escapeL, replLAppend]

theorem escapeLSingleton (x : Char) : escapeL [x] = escCharSpec x := by
  by_cases h1 : x = '\\'
  · subst h1; decide
  by_cases h2 : x = '['
  · subst h2; decide
  by_cases h3 : x = ']'
  · subst h3; decide
  by_cases h4 : x = '#'
  · subst h4; decide
  by_cases h5 : x = '$'
  · subst h5; decide
  by_cases h6 : x = btk
  · subst h6; decide
  by_cases h7 : x = '*'
  · subst h7; decide
  by_cases h8 : x = '_'
  · subst h8; decide
  by_cases h9 : x = '<'
  · subst h9; decide
  by_cases h10 : x = '>'
  · subst h10; decide
  by_cases h11 : x = '@'
  · subst h11; decide
  by_cases h12 : x = '\n'
  · subst h12; decide
  by_cases h13 : x = '\r'
  · subst h13; decide
  by_cases h14 : x = '\t'
  · subst h14; decide
  simp [escapeL, replL, List.flatMap, escCharSpec, isSpecial,
    h1, h2, h3, h4, h5, h6, h7, h8, h9, h10, h11, h12, h13, h14]

/-- The fourteen sequential replacement passes amount to a single
per-character pass: no pass ever rewrites a character introduced by an
earlier pass. -/
theorem escapeLBind (l : List Char) : escapeL l = l.flatMap escCharSpec := by
  induction l with
  | nil => decide
  | cons x t ih =>
    have : x :: t = [x] ++ t := rfl
    rw [this, escapeLAppend, escapeLSingleton, ih]
    simp [List.flatMap_append]

/-- Modelled from the spec: the mental inversion of the escaping rules
(§8): a backslash followed by one of the eleven special characters is an
escape for that character and the backslash is dropped; everything else is
kept.  (The inverse transformation does not exist in the source.) -/
def unescapeL : List Char → List Char
  | [] => []
  | [c] => [c]
  | a :: c :: rest =>
    if a = '\\' && isSpecial c then c :: unescapeL rest
    else a :: unescapeL (c :: rest)

def unescapeTypst (s : String) : String := ⟨unescapeL s.data⟩

theorem unescapeTypstEq (s : String) : unescapeTypst s = String.mk (unescapeL s.data) := rfl

theorem unescapeLConsPlain (x : Char) (t : List Char) (h : isSpecial x = false) :
    unescapeL (x :: t) = x :: unescapeL t := by
  have hx : x ≠ '\\' := by
    intro he; subst he; simp [isSpecial] at h
  cases t with
  | nil => rfl
  | cons c rest => simp [unescapeL, hx]

theorem unescapeLConsEsc (c : Char) (t : List Char) (h : isSpecial c = true) :
    unescapeL ('\\' :: c :: t) = c :: unescapeL t := by
  simp [unescapeL, h]

/-- No unescaped special character: the scan decomposes into escape pairs
`\c` (`c` special) and plain non-special characters. -/
def wellEscapedB : List Char → Bool
  | [] => true
  | [c] => !(isSpecial c)
  | a :: c :: rest =>
    if a = '\\' then isSpecial c && wellEscapedB rest
    else !(isSpecial a) && wellEscapedB (c :: rest)

theorem wellEscapedBPair (c : Char) (t : List Char) :
    wellEscapedB ('\\' :: c :: t) = (isSpecial c && wellEscapedB t) := by
  simp [wellEscapedB]

theorem wellEscapedBPlain (x : Char) (t : List Char) (h : isSpecial x = false) :
    wellEscapedB (x :: t) = wellEscapedB t := by
  have hx : x ≠ '\\' := by
    intro he; subst he; simp [isSpecial] at h
  cases t with
  | nil => simp [wellEscapedB, h]
  | cons c rest => simp [wellEscapedB, hx, h]

theorem unescapeLEscapeL (l : List Char)
    (h : ∀ c ∈ l, c ≠ '\n' ∧ c ≠ '\r' ∧ c ≠ '\t') :
    unescapeL (escapeL l) = l := by
  induction l with
  | nil => decide
  | cons x t ih =>
    have ht : ∀ c ∈ t, c ≠ '\n' ∧ c ≠ '\r' ∧ c ≠ '\t' :=
      fun c hc => h c (List.mem_cons_of_mem x hc)
    have hx := h x (List.mem_cons_self x t)
    have hstep : escapeL (x :: t) = escCharSpec x ++ escapeL t := by
      rw [show x :: t = [x] ++ t from rfl, escapeLAppend, escapeLSingleton]
    rw [hstep]
    by_cases hs : isSpecial x = true
    · have : escCharSpec x = ['\\', x] := by simp [escCharSpec, hs]
      rw [this]
      simpa [unescapeLConsEsc x _ hs] using congrArg (x :: ·) (ih ht)
    · have hplain : escCharSpec x = [x] := by
        simp only [escCharSpec, hs, Bool.false_eq_true, if_false]
        rw [if_neg, if_neg hx.2.1]
        intro hc
        rcases hc with hc | hc
        · exact hx.1 hc
        · exact hx.2.2 hc
      rw [hplain]
      have := unescapeLConsPlain x (escapeL t) (by simpa using hs)
      simpa [this] using congrArg (x :: ·) (ih ht)

theorem wellEscapedEscapeL (l : List Char) : wellEscapedB (escapeL l) = true := by
  induction l with
  | nil => decide
  | cons x t ih =>
    have hstep : escapeL (x :: t) = escCharSpec x ++ escapeL t := by
      rw [show x :: t = [x] ++ t from rfl, escapeLAppend, escapeLSingleton]
    rw [hstep]
    by_cases hs : isSpecial x = true
    · have he : escCharSpec x = ['\\', x] := by simp [escCharSpec, hs]
      rw [he]
      simp only [List.cons_append, List.nil_append]
      rw [wellEscapedBPair, hs, ih]
      rfl
    · by_cases hn : x = '\n'
      · subst hn
        have he : escCharSpec '\n' = [' '] := by decide
        rw [he]
        simp only [List.cons_append, List.nil_append]
        rw [wellEscapedBPlain ' ' _ (by decide)]
        exact ih
      by_cases hr : x = '\r'
      · subst hr
        have he : escCharSpec '\r' = [] := by decide
        rw [he]
        simpa using ih
      by_cases htb : x = '\t'
      · subst htb
        have he : escCharSpec '\t' = [' '] := by decide
        rw [he]
        simp only [List.cons_append, List.nil_append]
        rw [wellEscapedBPlain ' ' _ (by decide)]
        exact ih
      · have hplain : escCharSpec x = [x] := by
          simp only [escCharSpec, hs, Bool.false_eq_true, if_false]
          rw [if_neg, if_neg hr]
          intro hc
          rcases hc with hc | hc
          · exact hn hc
          · exact htb hc
        rw [hplain]
        simpa [wellEscapedBPlain x _ (by simpa using hs)] using ih

/-! ## Text Formatter (`formatTextOutput` in player.ts)

Positions that the source prints with `toFixed(2)` (`pos`, `feetPos`) carry
hundredths; positions printed raw (`blockPos`, `lastDeathPos`,
`respawnPos`) carry plain integers. -/

def boolCn (b : Bool) : String := if b then "✅ 是" else "❌ 否"

def speedStr (o : Option Int) : String :=
  match o with
  | some s => toFixed2 s
  | none => "N/A"

def basicInfo (p : PlayerInfo) (cfg : Config) : List String :=
  pushIf (isFieldEnabled cfg "xuid") ("  • XUID: " ++ p.xuid) ++
    pushIf (isFieldEnabled cfg "uuid") ("  • UUID: " ++ p.uuid) ++
    pushIf (isFieldEnabled cfg "uniqueId") ("  • UniqueId: " ++ p.uniqueId) ++
    pushIf (isFieldEnabled cfg "permLevel") ("  • 权限等级: " ++ getPermLevel p.permLevel) ++
    pushIf (isFieldEnabled cfg "isOP") ("  • OP: " ++ boolCn p.isOP) ++
    pushIf (isFieldEnabled cfg "isSimulatedPlayer") ("  • 模拟玩家: " ++ boolCn p.isSimulatedPlayer) ++
    pushIf (isFieldEnabled cfg "langCode") ("  • 语言: " ++ p.langCode)

def textFlags (p : PlayerInfo) (cfg : Config) : List String :=
  pushIf (isFieldEnabled cfg "isFlying" && p.isFlying) "🦅 飞行" ++
    pushIf (isFieldEnabled cfg "isSneaking" && p.isSneaking) "🐍 潜行" ++
    pushIf (isFieldEnabled cfg "isSprinting" && p.isSprinting) "🏃 疾跑" ++
    pushIf (isFieldEnabled cfg "isMoving" && p.isMoving) "🚶 移动中" ++
    pushIf (isFieldEnabled cfg "isInAir" && p.isInAir) "☁️ 空中" ++
    pushIf (isFieldEnabled cfg "isInWater" && p.isInWater) "💧 水中" ++
    pushIf (isFieldEnabled cfg "isInLava" && p.isInLava) "🔥 岩浆中" ++
    pushIf (isFieldEnabled cfg "isOnGround" && p.isOnGround) "🧱 地面" ++
    pushIf (isFieldEnabled cfg "isOnFire" && p.isOnFire) "🔥 着火" ++
    pushIf (isFieldEnabled cfg "isSleeping" && p.isSleeping) "😴 睡觉" ++
    pushIf (isFieldEnabled cfg "isGliding" && p.isGliding) "🪂 滑翔" ++
    pushIf (isFieldEnabled cfg "isRiding" && p.isRiding) "🐴 骑乘" ++
    pushIf (isFieldEnabled cfg "isInvisible" && p.isInvisible) "👻 隐身" ++
    pushIf (isFieldEnabled cfg "isHungry" && p.isHungry) "🍖 饥饿" ++
    pushIf (isFieldEnabled cfg "canFly" && p.canFly) "✈️ 可飞行"

/-- The joint health/maxHealth line of the text formatter. -/
def healthLine (p : PlayerInfo) : String :=
  "  • 生命值: " ++ (toString p.health ++ ("/" ++ (toString p.maxHealth ++ " ❤️")))

def gameStatus (p : PlayerInfo) (cfg : Config) : List String :=
  pushIf (isFieldEnabled cfg "gameMode") ("  • 游戏模式: " ++ getGameMode p.gameMode) ++
    pushIf (isFieldEnabled cfg "health" && isFieldEnabled cfg "maxHealth") (healthLine p) ++
    pushIf (isFieldEnabled cfg "speed") ("  • 移动速度: " ++ speedStr p.speed) ++
    pushIf (!(textFlags p cfg).isEmpty) ("  • 状态: " ++ joinSep " | " (textFlags p cfg))

def expInfo (p : PlayerInfo) (cfg : Config) : List String :=
  pushIf (isFieldEnabled cfg "level") ("  • 等级: " ++ toString p.level) ++
    pushIf (isFieldEnabled cfg "currentExp") ("  • 当前经验: " ++ toString p.currentExp) ++
    pushIf (isFieldEnabled cfg "totalExp") ("  • 总经验: " ++ toString p.totalExp) ++
    pushIf (isFieldEnabled cfg "expNeededForNextLevel") ("  • 升级所需: " ++ toString p.expNeededForNextLevel)

def posInfo (p : PlayerInfo) (cfg : Config) : List String :=
  optList p.pos (fun pp =>
      pushIf (isFieldEnabled cfg "pos.dimId") ("  • 维度: " ++ getDimensionOpt pp.dimId)) ++
    optList p.pos (fun pp =>
      pushIf (isFieldEnabled cfg "pos")
        ("  • 精确坐标: " ++ (toFixed2 pp.x ++ (", " ++ (toFixed2 pp.y ++ (", " ++ toFixed2 pp.z)))))) ++
    optList p.blockPos (fun bp =>
      pushIf (isFieldEnabled cfg "blockPos")
        ("  • 方块坐标: " ++ (toString bp.x ++ (", " ++ (toString bp.y ++ (", " ++ toString bp.z)))))) ++
    optList p.feetPos (fun fp =>
      pushIf (isFieldEnabled cfg "feetPos")
        ("  • 脚部坐标: " ++ (toFixed2 fp.x ++ (", " ++ (toFixed2 fp.y ++ (", " ++ toFixed2 fp.z)))))) ++
    optList p.lastDeathPos (fun dp =>
      pushIf (isFieldEnabled cfg "lastDeathPos")
        ("  • 上次死亡: " ++ (toString dp.x ++ (", " ++ (toString dp.y ++ (", " ++
          (toString dp.z ++ (" (" ++ (getDimensionOpt dp.dimId ++ ")"))))))))) ++
    optList p.respawnPos (fun rp =>
      pushIf (isFieldEnabled cfg "respawnPos")
        ("  • 重生点: " ++ (toString rp.x ++ (", " ++ (toString rp.y ++ (", " ++
          (toString rp.z ++ (" (" ++ (getDimensionOpt rp.dimId ++ ")")))))))))

def biomeDisplay (cfg : Config) (b : Biome) : String :=
  if isFieldEnabled cfg "biome.id" then b.name ++ (" (ID: " ++ (toString b.id ++ ")"))
  else b.name

def blockDisplay (cfg : Config) (so : BlockInfo) : String :=
  if isFieldEnabled cfg "standingOn.type" then so.name ++ (" (" ++ (so.type ++ ")"))
  else so.name

def envInfo (p : PlayerInfo) (cfg : Config) : List String :=
  optList p.biome (fun b =>
      pushIf (isFieldEnabled cfg "biome" || isFieldEnabled cfg "biome.name")
        ("  • 生物群系: " ++ biomeDisplay cfg b)) ++
    optList p.standingOn (fun so =>
      pushIf (isFieldEnabled cfg "standingOn" || isFieldEnabled cfg "standingOn.name")
        ("  • 脚下方块: " ++ blockDisplay cfg so))

def deviceInfo (p : PlayerInfo) (cfg : Config) : List String :=
  if isFieldEnabled cfg "device" then
    optList p.device (fun d =>
      pushIf (isFieldEnabled cfg "device.os") ("  • 操作系统: " ++ d.os) ++
        pushIf (isFieldEnabled cfg "device.inputMode") ("  • 输入方式: " ++ getInputMode d.inputMode) ++
        pushIf (isFieldEnabled cfg "device.ip") ("  • IP 地址: " ++ d.ip) ++
        pushIf (isFieldEnabled cfg "device.clientId") ("  • 客户端 ID: " ++ d.clientId) ++
        pushIf (isFieldEnabled cfg "device.serverAddress") ("  • 服务器地址: " ++ d.serverAddress) ++
        pushIf (isFieldEnabled cfg "device.avgPing") ("  • 平均延迟: " ++ (toString d.avgPing ++ "ms")) ++
        pushIf (isFieldEnabled cfg "device.lastPing") ("  • 最近延迟: " ++ (toString d.lastPing ++ "ms")) ++
        pushIf (isFieldEnabled cfg "device.avgPacketLoss") ("  • 平均丢包率: " ++ (toFixed2 d.avgPacketLoss ++ "%")) ++
        pushIf (isFieldEnabled cfg "device.lastPacketLoss") ("  • 最近丢包率: " ++ (toFixed2 d.lastPacketLoss ++ "%")))
  else []

/-- The array-of-serializations form of `JSON.stringify(player.armor)`. -/
def jsonArr (l : List String) : String := "[" ++ (joinSep "," l ++ "]")

def itemInfo (p : PlayerInfo) (cfg : Config) : List String :=
  optList p.handItem (fun s => pushIf (isFieldEnabled cfg "handItem") ("  • 主手物品: " ++ s)) ++
    optList p.offHandItem (fun s => pushIf (isFieldEnabled cfg "offHandItem") ("  • 副手物品: " ++ s)) ++
    optList p.armor (fun l => pushIf (isFieldEnabled cfg "armor" && !l.isEmpty) ("  • 装备: " ++ jsonArr l)) ++
    optList p.tags (fun l => pushIf (isFieldEnabled cfg "tags" && !l.isEmpty) ("  • 标签: " ++ joinSep ", " l))

/-- A themed section: heading, lines, then a blank separator — pushed only
when the section produced at least one line. -/
def textChunk (hd : String) (body : List String) : List String :=
  if body = [] then [] else hd :: body ++ [""]

/-- The final (items) section has no trailing blank line. -/
def itemChunk (hd : String) (body : List String) : List String :=
  if body = [] then [] else hd :: body

def textLines (p : PlayerInfo) (cfg : Config) (label : String) : List String :=
  (label ++ (" 👤 玩家详情: " ++ p.name)) :: "" ::
    (textChunk "📋 基本信息:" (basicInfo p cfg) ++
      textChunk "🎮 游戏状态:" (gameStatus p cfg) ++
      textChunk "⭐ 经验信息:" (expInfo p cfg) ++
      textChunk "📍 位置信息:" (posInfo p cfg) ++
      textChunk "🌍 环境信息:" (envInfo p cfg) ++
      textChunk "📱 设备信息:" (deviceInfo p cfg) ++
      itemChunk "🎒 物品信息:" (itemInfo p cfg))

def notFoundText (queryName label : String) : String :=
  label ++ (" 👤 玩家查询\n\n❌ 未找到玩家: " ++ queryName)

/-- `formatTextOutput(player, queryName, cfg, label)`.  The JS guard
`!player || !player.name` is: record absent, or its `name` falsy (empty). -/
def formatTextOutput (player : Option PlayerInfo) (queryName : String)
    (cfg : Config) (label : String) : String :=
  match player with
  | none => notFoundText queryName label
  | some p =>
    if p.name = "" then notFoundText queryName label
    else jsTrimEnd (joinSep "\n" (textLines p cfg label))

/-! ## Markup Formatter (`generateTypstCode` in player.ts)

The theme built by `buildTypstTheme` (index.ts): ten string-valued slots.
The source reads `new Date().toLocaleString('zh-CN')` at call time; that
clock reading is the explicit last argument `ts` here. -/

structure TypstTheme where
  fontFamily : String
  pageBg : String
  textColor : String
  headerFill : String
  headerStroke : String
  headerText : String
  panelFill : String
  panelStroke : String
  sectionTitle : String
  statsText : String
  deriving DecidableEq, Repr

/-- The `#set page(...)` preamble; `w` is the page width (`400pt` in the
not-found branch, `450pt` in the success branch). -/
def pageSet (w : String) (th : TypstTheme) : String :=
  "#set page(\n  width: " ++ (w ++ (",\n  height: auto,\n  margin: (x: 14pt, y: 14pt),\n  fill: "
    ++ (th.pageBg ++ "\n)\n\n")))

/-- The `#set text(...)` preamble (identical in both branches). -/
def textSet (th : TypstTheme) : String :=
  "#set text(\n  font: (\"" ++ (th.fontFamily
    ++ ("\", \"Noto Sans CJK SC\", \"Microsoft YaHei\"),\n  size: 11pt,\n  fill: "
      ++ (th.textColor ++ ",\n  lang: \"zh\"\n)\n\n")))

/-- The attribution/timestamp footer (identical in both branches). -/
def footerBlock (th : TypstTheme) (ts : String) : String :=
  "#align(center)[\n  #text(size: 8pt, fill: " ++ (th.statsText
    ++ (")[\n    Generated by serverinfo-rest-client · " ++ (escapeTypstText ts ++ "\n  ]\n]\n")))

/-- The header block up to the escaped label (identical in both branches). -/
def headerPre (th : TypstTheme) : String :=
  "#align(center)[\n  #block(\n    fill: " ++ (th.headerFill
    ++ (",\n    stroke: 2pt + " ++ (th.headerStroke
      ++ (",\n    radius: 6pt,\n    inset: 10pt,\n    width: 100%\n  )[\n    #text(size: 16pt, weight: \"bold\", fill: "
        ++ (th.headerText ++ ")[\n      ")))))

def notFoundTypst (queryName : String) (th : TypstTheme) (label ts : String) : String :=
  pageSet "400pt" th ++ (textSet th ++ (headerPre th ++ (escapeTypstText label
    ++ (" 👤 玩家查询\n    ]\n  ]\n]\n\n#v(8pt)\n\n#block(\n  fill: "
      ++ (th.panelFill ++ (",\n  stroke: 1pt + " ++ (th.panelStroke
        ++ (",\n  radius: 4pt,\n  inset: 12pt,\n  width: 100%\n)[\n  #align(center)[\n    #text(size: 12pt)[❌ 未找到玩家: "
          ++ (escapeTypstText queryName ++ ("]\n  ]\n]\n\n#v(8pt)\n\n" ++ footerBlock th ts))))))))))

def typstFlags (p : PlayerInfo) (cfg : Config) : List String :=
  pushIf (isFieldEnabled cfg "isOP" && p.isOP) "👑 OP" ++
    pushIf (isFieldEnabled cfg "isFlying" && p.isFlying) "🦅 飞行" ++
    pushIf (isFieldEnabled cfg "isSneaking" && p.isSneaking) "🐍 潜行" ++
    pushIf (isFieldEnabled cfg "isSprinting" && p.isSprinting) "🏃 疾跑" ++
    pushIf (isFieldEnabled cfg "isInWater" && p.isInWater) "💧 水中" ++
    pushIf (isFieldEnabled cfg "isInLava" && p.isInLava) "🔥 岩浆" ++
    pushIf (isFieldEnabled cfg "isOnFire" && p.isOnFire) "🔥 着火" ++
    pushIf (isFieldEnabled cfg "isGliding" && p.isGliding) "🪂 滑翔" ++
    pushIf (isFieldEnabled cfg "isRiding" && p.isRiding) "🐴 骑乘" ++
    pushIf (isFieldEnabled cfg "isInvisible" && p.isInvisible) "👻 隐身"

def basicInfoRows (p : PlayerInfo) (cfg : Config) : List String :=
  pushIf (isFieldEnabled cfg "xuid")
      ("[XUID], [#text(size: 9pt)[" ++ (escapeTypstText p.xuid ++ "]],")) ++
    pushIf (isFieldEnabled cfg "uuid")
      ("[UUID], [#text(size: 9pt)[" ++ (escapeTypstText p.uuid ++ "]],")) ++
    pushIf (isFieldEnabled cfg "uniqueId")
      ("[UniqueId], [#text(size: 9pt)[" ++ (escapeTypstText p.uniqueId ++ "]],")) ++
    pushIf (isFieldEnabled cfg "permLevel")
      ("[权限等级], [" ++ (escapeTypstText (getPermLevel p.permLevel) ++ "],")) ++
    pushIf (isFieldEnabled cfg "isSimulatedPlayer")
      ("[模拟玩家], [" ++ (boolCn p.isSimulatedPlayer ++ "],")) ++
    pushIf (isFieldEnabled cfg "langCode")
      ("[语言], [" ++ (escapeTypstText p.langCode ++ "],"))

/-- The joint health/maxHealth item of the markup formatter. -/
def healthItem (p : PlayerInfo) : String :=
  "[生命值: ❤️ " ++ (toString p.health ++ ("/" ++ (toString p.maxHealth ++ "]")))

def gameStatusItems (p : PlayerInfo) (cfg : Config) : List String :=
  pushIf (isFieldEnabled cfg "gameMode")
      ("[游戏模式: " ++ (escapeTypstText (getGameMode p.gameMode) ++ "]")) ++
    pushIf (isFieldEnabled cfg "health" && isFieldEnabled cfg "maxHealth") (healthItem p) ++
    pushIf (isFieldEnabled cfg "speed")
      ("[移动速度: 🏃 " ++ (speedStr p.speed ++ "]")) ++
    pushIf (isFieldEnabled cfg "isHungry")
      ("[饥饿: " ++ ((if p.isHungry then "🍖 是" else "🍗 否") ++ "]"))

def expItems (p : PlayerInfo) (cfg : Config) : List String :=
  pushIf (isFieldEnabled cfg "level") ("[等级: ⭐ " ++ (toString p.level ++ "]")) ++
    pushIf (isFieldEnabled cfg "currentExp") ("[当前经验: " ++ (toString p.currentExp ++ "]")) ++
    pushIf (isFieldEnabled cfg "totalExp") ("[总经验: " ++ (toString p.totalExp ++ "]")) ++
    pushIf (isFieldEnabled cfg "expNeededForNextLevel")
      ("[升级所需: " ++ (toString p.expNeededForNextLevel ++ "]"))

def posInfoRows (p : PlayerInfo) (cfg : Config) : List String :=
  optList p.pos (fun pp =>
      pushIf (isFieldEnabled cfg "pos.dimId")
        ("[维度], [" ++ (escapeTypstText (getDimensionOpt pp.dimId) ++ "],"))) ++
    optList p.pos (fun pp =>
      pushIf (isFieldEnabled cfg "pos")
        ("[精确坐标], [" ++ (toFixed2 pp.x ++ (", " ++ (toFixed2 pp.y ++ (", " ++ (toFixed2 pp.z ++ "],"))))))) ++
    optList p.blockPos (fun bp =>
      pushIf (isFieldEnabled cfg "blockPos")
        ("[方块坐标], [" ++ (toString bp.x ++ (", " ++ (toString bp.y ++ (", " ++ (toString bp.z ++ "],"))))))) ++
    optList p.lastDeathPos (fun dp =>
      pushIf (isFieldEnabled cfg "lastDeathPos")
        ("[上次死亡], [" ++ (toString dp.x ++ (", " ++ (toString dp.y ++ (", " ++ (toString dp.z ++ "],"))))))) ++
    optList p.respawnPos (fun rp =>
      pushIf (isFieldEnabled cfg "respawnPos")
        ("[重生点], [" ++ (toString rp.x ++ (", " ++ (toString rp.y ++ (", " ++ (toString rp.z ++ "],")))))))

def envInfoRows (p : PlayerInfo) (cfg : Config) : List String :=
  optList p.biome (fun b =>
      pushIf (isFieldEnabled cfg "biome" || isFieldEnabled cfg "biome.name")
        ("[生物群系], [" ++ (escapeTypstText (biomeDisplay cfg b) ++ "],"))) ++
    optList p.standingOn (fun so =>
      pushIf (isFieldEnabled cfg "standingOn" || isFieldEnabled cfg "standingOn.name")
        ("[脚下方块], [" ++ (escapeTypstText so.name ++ "],")))

def deviceInfoRows (p : PlayerInfo) (cfg : Config) : List String :=
  if isFieldEnabled cfg "device" then
    optList p.device (fun d =>
      pushIf (isFieldEnabled cfg "device.os")
          ("[操作系统], [" ++ (escapeTypstText d.os ++ "],")) ++
        pushIf (isFieldEnabled cfg "device.inputMode")
          ("[输入方式], [" ++ (escapeTypstText (getInputMode d.inputMode) ++ "],")) ++
        pushIf (isFieldEnabled cfg "device.ip")
          ("[IP 地址], [#text(size: 9pt)[" ++ (escapeTypstText d.ip ++ "]],")) ++
        pushIf (isFieldEnabled cfg "device.serverAddress")
          ("[服务器地址], [#text(size: 9pt)[" ++ (escapeTypstText d.serverAddress ++ "]],")) ++
        pushIf (isFieldEnabled cfg "device.avgPing")
          ("[平均延迟], [" ++ (toString d.avgPing ++ "ms],")) ++
        pushIf (isFieldEnabled cfg "device.lastPing")
          ("[最近延迟], [" ++ (toString d.lastPing ++ "ms],")) ++
        pushIf (isFieldEnabled cfg "device.avgPacketLoss")
          ("[平均丢包], [" ++ (toFixed2 d.avgPacketLoss ++ "%],")))
  else []

/-- Common prefix of every section panel, up to its title text. -/
def panelPre (th : TypstTheme) : String :=
  "#block(\n  fill: " ++ (th.panelFill ++ (",\n  stroke: 1pt + " ++ (th.panelStroke
    ++ (",\n  radius: 4pt,\n  inset: 12pt,\n  width: 100%\n)[\n  #text(weight: \"bold\", fill: "
      ++ (th.sectionTitle ++ ")[")))))

/-- A bordered panel with a two-column key/value `#table`. -/
def tablePanel (th : TypstTheme) (hd : String) (rows : List String) : String :=
  panelPre th ++ (hd
    ++ ("]\n  #v(6pt)\n  #table(\n    columns: (auto, 1fr),\n    stroke: none,\n    row-gutter: 4pt,\n    "
      ++ (joinSep "\n    " rows ++ "\n  )\n]")))

/-- A bordered panel with a two-column `#grid` of compact items. -/
def gridPanel (th : TypstTheme) (hd : String) (items : List String) : String :=
  panelPre th ++ (hd
    ++ ("]\n  #v(6pt)\n  #grid(\n    columns: (1fr, 1fr),\n    gutter: 8pt,\n    "
      ++ (joinSep ",\n    " items ++ ",\n  )\n]")))

/-- A panel is emitted only when its section contributed at least one row. -/
def pchunk (rows : List String) (panel : String) : List String :=
  if rows = [] then [] else [panel]

def typstPanels (p : PlayerInfo) (th : TypstTheme) (cfg : Config) : List String :=
  pchunk (basicInfoRows p cfg) (tablePanel th "📋 基本信息" (basicInfoRows p cfg)) ++
    pchunk (gameStatusItems p cfg) (gridPanel th "🎮 游戏状态" (gameStatusItems p cfg)) ++
    pchunk (expItems p cfg) (gridPanel th "⭐ 经验信息" (expItems p cfg)) ++
    pchunk (posInfoRows p cfg) (tablePanel th "📍 位置信息" (posInfoRows p cfg)) ++
    pchunk (envInfoRows p cfg) (tablePanel th "🌍 环境信息" (envInfoRows p cfg)) ++
    pchunk (deviceInfoRows p cfg) (tablePanel th "📱 设备信息" (deviceInfoRows p cfg))

def flagsPart (th : TypstTheme) (fl : List String) : String :=
  if fl = [] then ""
  else "#h(8pt) #text(size: 11pt, fill: " ++ (th.headerText ++ (")[" ++ (joinSep " " fl ++ "]")))

def successTypst (p : PlayerInfo) (th : TypstTheme) (cfg : Config) (label ts : String) : String :=
  pageSet "450pt" th ++ (textSet th ++ (headerPre th ++ (escapeTypstText label
    ++ (" 👤 " ++ (escapeTypstText p.name
      ++ ("\n    ]\n    " ++ (flagsPart th (typstFlags p cfg)
        ++ ("\n  ]\n]\n\n#v(8pt)\n\n" ++ (joinSep "\n\n#v(6pt)\n\n" (typstPanels p th cfg)
          ++ ("\n\n#v(8pt)\n\n" ++ footerBlock th ts))))))))))

/-- `generateTypstCode(player, queryName, theme, cfg, label)`; `ts` is the
clock reading the source takes at function entry. -/
def generateTypstCode (player : Option PlayerInfo) (queryName : String)
    (th : TypstTheme) (cfg : Config) (label : String) (ts : String) : String :=
  match player with
  | none => notFoundTypst queryName th label ts
  | some p =>
    if p.name = "" then notFoundTypst queryName th label ts
    else successTypst p th cfg label ts

/-! ## Command action (`registerPlayerCommand` in player.ts)

One reply element per selected output mode; the image pipeline (renderer
acquisition, theme build, markup generation, PNG render) is modelled by an
`Except`-valued function of the generated markup, and the `catch` branch by
its `error` case. -/

inductive MsgElem where
  | mtext (s : String)
  | mimage (png : List Nat)
  deriving DecidableEq, Repr

def runModes (modes : List OutputMode) (data : Option PlayerInfo) (name : String)
    (cfg : Config) (label : String) (th : TypstTheme) (ts : String)
    (render : String → Except String (List Nat)) : List MsgElem :=
  modes.map (fun m =>
    match m with
    | OutputMode.text => MsgElem.mtext (formatTextOutput data name cfg label)
    | OutputMode.typstImage =>
      match render (generateTypstCode data name th cfg label ts) with
      | Except.ok png => MsgElem.mimage png
      | Except.error msg => MsgElem.mtext ("[Typst 渲染失败: " ++ (msg ++ "]")))

/-- `resolveOutputModes(modeArg, cfg)` from index.ts: a recognized literal
override replaces the set; anything else (absent, empty, unrecognized)
falls back to the configured defaults. -/
def resolveOutputModes (modeArg : Option String) (cfg : Config) : List OutputMode :=
  match modeArg with
  | some "text" => [OutputMode.text]
  | some "image" => [OutputMode.typstImage]
  | _ => cfg.defaultOutputModes

/-! ## Decomposition of the two markup documents into shared blocks -/

/-- Everything of the not-found document between the text preamble and the
footer. -/
def notFoundMid (queryName : String) (th : TypstTheme) (label : String) : String :=
  headerPre th ++ (escapeTypstText label
    ++ (" 👤 玩家查询\n    ]\n  ]\n]\n\n#v(8pt)\n\n#block(\n  fill: "
      ++ (th.panelFill ++ (",\n  stroke: 1pt + " ++ (th.panelStroke
        ++ (",\n  radius: 4pt,\n  inset: 12pt,\n  width: 100%\n)[\n  #align(center)[\n    #text(size: 12pt)[❌ 未找到玩家: "
          ++ (escapeTypstText queryName ++ "]\n  ]\n]\n\n#v(8pt)\n\n")))))))

/-- Everything of the success document between the text preamble and the
footer. -/
def successMid (p : PlayerInfo) (th : TypstTheme) (cfg : Config) (label : String) : String :=
  headerPre th ++ (escapeTypstText label ++ (" 👤 " ++ (escapeTypstText p.name
    ++ ("\n    ]\n    " ++ (flagsPart th (typstFlags p cfg)
      ++ ("\n  ]\n]\n\n#v(8pt)\n\n" ++ (joinSep "\n\n#v(6pt)\n\n" (typstPanels p th cfg)
        ++ "\n\n#v(8pt)\n\n")))))))

theorem notFoundTypstDecomp (q : String) (th : TypstTheme) (label ts : String) :
    notFoundTypst q th label ts =
      pageSet "400pt" th ++ (textSet th ++ (notFoundMid q th label ++ footerBlock th ts)) := by
  unfold notFoundTypst notFoundMid
  simp only [strAssoc]

theorem successTypstDecomp (p : PlayerInfo) (th : TypstTheme) (cfg : Config) (label ts : String) :
    successTypst p th cfg label ts =
      pageSet "450pt" th ++ (textSet th ++ (successMid p th cfg label ++ footerBlock th ts)) := by
  unfold successTypst successMid
  simp only [strAssoc]

/-- The JS guard `!player || !player.name`. -/
def nameOf (o : Option PlayerInfo) : String :=
  match o with
  | none => ""
  | some p => p.name

/-! ## Concrete fixtures for witnesses and counterexamples -/

def wTheme : TypstTheme :=
  { fontFamily := "F", pageBg := "PB", textColor := "TC", headerFill := "HF",
    headerStroke := "HS", headerText := "HT", panelFill := "PF",
    panelStroke := "PS", sectionTitle := "ST", statsText := "SX" }

def wCfg : Config := { playerFieldFilters := [], defaultOutputModes := [] }

def wPlayer : PlayerInfo :=
  { name := "S", xuid := "1", uuid := "2", uniqueId := "3",
    permLevel := 0, gameMode := 0, isOP := false, isSimulatedPlayer := false,
    health := 18, maxHealth := 20,
    pos := none, blockPos := none, feetPos := none,
    lastDeathPos := none, respawnPos := none,
    speed := none, biome := none, standingOn := none,
    isFlying := false, isSneaking := false, isSprinting := false,
    isMoving := false, isInAir := false, isInWater := false, isInLava := false,
    isOnGround := false, isOnFire := false, isSleeping := false,
    isGliding := false, isRiding := false, isInvisible := false,
    isHungry := false, canFly := false,
    level := 1, currentExp := 2, totalExp := 3, expNeededForNextLevel := 4,
    handItem := none, offHandItem := none, armor := none, tags := none,
    device := none, langCode := "zh" }

/-! ## Claim C3 -/

theorem findFiltersFirst (key : String) (pre : List FieldFilter) (f : FieldFilter)
    (post : List FieldFilter) (hpre : ∀ g ∈ pre, g.key ≠ key) (hf : f.key = key) :
    (pre ++ f :: post).find? (fun g => g.key == key) = some f := by
  induction pre with
  | nil => simp [List.find?, hf]
  | cons g t ih =>
    have hg : (g.key == key) = false := by
      simp only [beq_eq_false_iff_ne]
      exact hpre g (List.mem_cons_self g t)
    simp only [List.cons_append, List.find?]
    rw [hg]
    exact ih (fun x hx => hpre x (List.mem_cons_of_mem g hx))

/-- C3: `isFieldEnabled` returns the `enabled` value of the first exactly
matching entry of the filter set, and `true` (fail-open) when no entry
matches — in particular for every path absent from the set. -/
theorem C3_visibility_resolver (cfg : Config) (key : String) :
    (∀ pre f post, cfg.playerFieldFilters = pre ++ f :: post →
        (∀ g ∈ pre, g.key ≠ key) → f.key = key →
        isFieldEnabled cfg key = f.enabled)
    ∧ ((∀ g ∈ cfg.playerFieldFilters, g.key ≠ key) → isFieldEnabled cfg key = true) := by
  constructor
  · intro pre f post hsplit hpre hf
    unfold isFieldEnabled
    rw [hsplit, findFiltersFirst key pre f post hpre hf]
  · intro habs
    unfold isFieldEnabled
    have : cfg.playerFieldFilters.find? (fun g => g.key == key) = none := by
      rw [List.find?_eq_none]
      intro g hg hbeq
      exact habs g hg (eq_of_beq hbeq)
    rw [this]

theorem C3_visibility_resolver_witness :
    isFieldEnabled
        { playerFieldFilters := [{ key := "health", enabled := false },
                                 { key := "health", enabled := true }],
          defaultOutputModes := [] } "health" = false
    ∧ isFieldEnabled
        { playerFieldFilters := [{ key := "xuid", enabled := false }],
          defaultOutputModes := [] } "health" = true := by
  constructor
  · exact (C3_visibility_resolver _ "health").1 []
      { key := "health", enabled := false } [{ key := "health", enabled := true }]
      rfl (by intro g hg; simp at hg) rfl
  · exact (C3_visibility_resolver _ "health").2 (by decide)

/-! ## Claim C7 -/

theorem lookupLabelNotMem (table : List (Int × String)) (code : Int) (fallback : String)
    (h : code ∉ table.map Prod.fst) : lookupLabel table code fallback = fallback := by
  unfold lookupLabel
  have hf : table.find? (fun kv => kv.1 == code) = none := by
    rw [List.find?_eq_none]
    intro kv hkv hbeq
    exact h (eq_of_beq hbeq ▸ List.mem_map_of_mem Prod.fst hkv)
  rw [hf]

/-- C7: each of the four lookup functions is total — a known code yields
its table label, an unknown code yields the fallback string which embeds
the exact code. -/
theorem C7_lookup_total (code : Int) :
    ((∀ lbl, (code, lbl) ∈ GAMEMODE_MAP → getGameMode code = lbl)
      ∧ (code ∉ GAMEMODE_MAP.map Prod.fst →
          getGameMode code = "❓ 未知 (" ++ toString code ++ ")"
          ∧ ∃ a b, getGameMode code = a ++ (toString code ++ b)))
    ∧ ((∀ lbl, (code, lbl) ∈ PERM_LEVEL_MAP → getPermLevel code = lbl)
      ∧ (code ∉ PERM_LEVEL_MAP.map Prod.fst →
          getPermLevel code = "❓ 未知 (" ++ toString code ++ ")"
          ∧ ∃ a b, getPermLevel code = a ++ (toString code ++ b)))
    ∧ ((∀ lbl, (code, lbl) ∈ DIMENSION_MAP → getDimension code = lbl)
      ∧ (code ∉ DIMENSION_MAP.map Prod.fst →
          getDimension code = "❓ 未知 (" ++ toString code ++ ")"
          ∧ ∃ a b, getDimension code = a ++ (toString code ++ b)))
    ∧ ((∀ lbl, (code, lbl) ∈ INPUT_MODE_MAP → getInputMode code = lbl)
      ∧ (code ∉ INPUT_MODE_MAP.map Prod.fst →
          getInputMode code = "❓ 未知 (" ++ toString code ++ ")"
          ∧ ∃ a b, getInputMode code = a ++ (toString code ++ b))) := by
  refine ⟨⟨?_, ?_⟩, ⟨?_, ?_⟩, ⟨?_, ?_⟩, ⟨?_, ?_⟩⟩
  · intro lbl h
    simp only [GAMEMODE_MAP, List.mem_cons, List.mem_singleton, Prod.mk.injEq,
      List.not_mem_nil, or_false] at h
    rcases h with ⟨rfl, rfl⟩ | ⟨rfl, rfl⟩ | ⟨rfl, rfl⟩ | ⟨rfl, rfl⟩ <;> decide
  · intro h
    have he := lookupLabelNotMem GAMEMODE_MAP code ("❓ 未知 (" ++ toString code ++ ")") h
    refine ⟨?_, "❓ 未知 (", ")", ?_⟩
    · unfold getGameMode
      rw [he]
    · unfold getGameMode
      rw [he]
      exact strAssoc _ _ _
  · intro lbl h
    simp only [PERM_LEVEL_MAP, List.mem_cons, List.mem_singleton, Prod.mk.injEq,
      List.not_mem_nil, or_false] at h
    rcases h with ⟨rfl, rfl⟩ | ⟨rfl, rfl⟩ | ⟨rfl, rfl⟩ | ⟨rfl, rfl⟩ <;> decide
  · intro h
    have he := lookupLabelNotMem PERM_LEVEL_MAP code ("❓ 未知 (" ++ toString code ++ ")") h
    refine ⟨?_, "❓ 未知 (", ")", ?_⟩
    · unfold getPermLevel
      rw [he]
    · unfold getPermLevel
      rw [he]
      exact strAssoc _ _ _
  · intro lbl h
    simp only [DIMENSION_MAP, List.mem_cons, List.mem_singleton, Prod.mk.injEq,
      List.not_mem_nil, or_false] at h
    rcases h with ⟨rfl, rfl⟩ | ⟨rfl, rfl⟩ | ⟨rfl, rfl⟩ <;> decide
  · intro h
    have he := lookupLabelNotMem DIMENSION_MAP code ("❓ 未知 (" ++ toString code ++ ")") h
    refine ⟨?_, "❓ 未知 (", ")", ?_⟩
    · unfold getDimension
      rw [he]
    · unfold getDimension
      rw [he]
      exact strAssoc _ _ _
  · intro lbl h
    simp only [INPUT_MODE_MAP, List.mem_cons, List.mem_singleton, Prod.mk.injEq,
      List.not_mem_nil, or_false] at h
    rcases h with ⟨rfl, rfl⟩ | ⟨rfl, rfl⟩ | ⟨rfl, rfl⟩ <;> decide
  · intro h
    have he := lookupLabelNotMem INPUT_MODE_MAP code ("❓ 未知 (" ++ toString code ++ ")") h
    refine ⟨?_, "❓ 未知 (", ")", ?_⟩
    · unfold getInputMode
      rw [he]
    · unfold getInputMode
      rw [he]
      exact strAssoc _ _ _

theorem C7_lookup_total_witness :
    getGameMode 1 = "🎨 创造" ∧ getGameMode 99 = "❓ 未知 (" ++ toString (99 : Int) ++ ")"
    ∧ getPermLevel 2 = "👑 管理员" ∧ getPermLevel (-1) = "❓ 未知 (" ++ toString (-1 : Int) ++ ")"
    ∧ getDimension 1 = "🔥 下界" ∧ getDimension 7 = "❓ 未知 (" ++ toString (7 : Int) ++ ")"
    ∧ getInputMode 3 = "🎮 手柄" ∧ getInputMode 0 = "❓ 未知 (" ++ toString (0 : Int) ++ ")" :=
  ⟨(C7_lookup_total 1).1.1 _ (by decide),
   ((C7_lookup_total 99).1.2 (by decide)).1,
   (C7_lookup_total 2).2.1.1 _ (by decide),
   ((C7_lookup_total (-1)).2.1.2 (by decide)).1,
   (C7_lookup_total 1).2.2.1.1 _ (by decide),
   ((C7_lookup_total 7).2.2.1.2 (by decide)).1,
   (C7_lookup_total 3).2.2.2.1 _ (by decide),
   ((C7_lookup_total 0).2.2.2.2 (by decide)).1⟩

/-! ## Claim C2 -/

/-- C2 counterexample: a carriage return is deleted by `escapeTypstText`,
not collapsed to a space. -/
theorem C2_cr_counterexample :
    escapeTypstText "\r" = "" ∧ escapeTypstText "\r" ≠ " " := by
  constructor <;> decide

/-- C2 (amended): the fourteen sequential replacement passes equal one
per-character pass — backslash doubled first and never re-escaped, the ten
other special characters prefixed with a backslash, newline and tab
collapsed to one space, carriage return removed. -/
theorem C2_escape_charwise (s : String) :
    escapeTypstText s = String.mk (s.data.flatMap escCharSpec)
    ∧ escCharSpec '\\' = ['\\', '\\']
    ∧ escCharSpec '\n' = [' '] ∧ escCharSpec '\t' = [' '] ∧ escCharSpec '\r' = []
    ∧ ∀ c, isSpecial c = true → escCharSpec c = ['\\', c] := by
  refine ⟨congrArg String.mk (escapeLBind s.data), by decide, by decide, by decide, by decide, ?_⟩
  intro c hc
  simp [escCharSpec, hc]

theorem C2_escape_charwise_witness : escCharSpec '[' = ['\\', '['] :=
  (C2_escape_charwise "x").2.2.2.2.2 '[' (by decide)

/-! ## Claim C9 -/

/-- C9: when the image pipeline fails, every `typst-image` mode in the
request degrades to the bracketed failure note while every `text` mode
still carries the text rendering — the failure never suppresses it. -/
theorem C9_render_failure_isolated (modes : List OutputMode) (data : Option PlayerInfo)
    (name : String) (cfg : Config) (label : String) (th : TypstTheme) (ts e : String) :
    runModes modes data name cfg label th ts (fun _ => Except.error e) =
      modes.map (fun m =>
        match m with
        | OutputMode.text => MsgElem.mtext (formatTextOutput data name cfg label)
        | OutputMode.typstImage => MsgElem.mtext ("[Typst 渲染失败: " ++ (e ++ "]")))
    ∧ (OutputMode.text ∈ modes →
        MsgElem.mtext (formatTextOutput data name cfg label) ∈
          runModes modes data name cfg label th ts (fun _ => Except.error e)) := by
  constructor
  · rfl
  · intro h
    unfold runModes
    exact List.mem_map_of_mem _ h

theorem C9_render_failure_isolated_witness :
    MsgElem.mtext (formatTextOutput none "q" wCfg "L") ∈
      runModes [OutputMode.text, OutputMode.typstImage] none "q" wCfg "L" wTheme "t"
        (fun _ => Except.error "boom") :=
  (C9_render_failure_isolated [OutputMode.text, OutputMode.typstImage]
    none "q" wCfg "L" wTheme "t" "boom").2 (by decide)

/-! ## Claim C1 -/

set_option maxRecDepth 8000 in
/-- C1 counterexample: two calls of the markup formatter with identical
record, query, theme, filters and label but different clock readings
produce different strings — the generation timestamp is an implicit input. -/
theorem C1_timestamp_counterexample :
    generateTypstCode none "q" wTheme wCfg "L" "2025-01-01 00:00:00" ≠
      generateTypstCode none "q" wTheme wCfg "L" "2025-01-02 00:00:00" := by
  decide

/-- C1 (amended): the text formatter is a function of exactly (record,
query, filters, label); the markup formatter is additionally a function of
the clock reading taken at entry, and that reading only enters through the
appended footer block. -/
theorem C1_formatters_deterministic (player : Option PlayerInfo) (q : String)
    (cfg : Config) (label : String) (th : TypstTheme) :
    (formatTextOutput player q cfg label = formatTextOutput player q cfg label)
    ∧ (∀ ts₁ ts₂, ts₁ = ts₂ →
        generateTypstCode player q th cfg label ts₁ = generateTypstCode player q th cfg label ts₂)
    ∧ (∃ X, ∀ ts, generateTypstCode player q th cfg label ts = X ++ footerBlock th ts) := by
  refine ⟨rfl, fun ts₁ ts₂ h => by rw [h], ?_⟩
  match player with
  | none =>
    refine ⟨pageSet "400pt" th ++ (textSet th ++ notFoundMid q th label), fun ts => ?_⟩
    show notFoundTypst q th label ts = _
    rw [notFoundTypstDecomp]
    simp only [strAssoc]
  | some p =>
    by_cases hn : p.name = ""
    · refine ⟨pageSet "400pt" th ++ (textSet th ++ notFoundMid q th label), fun ts => ?_⟩
      show (if p.name = "" then notFoundTypst q th label ts else successTypst p th cfg label ts) = _
      rw [if_pos hn, notFoundTypstDecomp]
      simp only [strAssoc]
    · refine ⟨pageSet "450pt" th ++ (textSet th ++ successMid p th cfg label), fun ts => ?_⟩
      show (if p.name = "" then notFoundTypst q th label ts else successTypst p th cfg label ts) = _
      rw [if_neg hn, successTypstDecomp]
      simp only [strAssoc]

theorem C1_formatters_deterministic_witness :
    generateTypstCode (some wPlayer) "q" wTheme wCfg "L" "t" =
      generateTypstCode (some wPlayer) "q" wTheme wCfg "L" "t" :=
  ((C1_formatters_deterministic (some wPlayer) "q" wCfg "L" wTheme).2.1 "t" "t" rfl)

/-! ## Branch lemmas for the two formatters -/

theorem formatTextOutputNotFound (player : Option PlayerInfo) (q : String) (cfg : Config)
    (label : String) (h : nameOf player = "") :
    formatTextOutput player q cfg label = notFoundText q label := by
  cases player with
  | none => rfl
  | some p =>
    have hn : p.name = "" := h
    show (if p.name = "" then notFoundText q label
      else jsTrimEnd (joinSep "\n" (textLines p cfg label))) = notFoundText q label
    rw [if_pos hn]

theorem generateTypstCodeNotFound (player : Option PlayerInfo) (q : String) (th : TypstTheme)
    (cfg : Config) (label ts : String) (h : nameOf player = "") :
    generateTypstCode player q th cfg label ts = notFoundTypst q th label ts := by
  cases player with
  | none => rfl
  | some p =>
    have hn : p.name = "" := h
    show (if p.name = "" then notFoundTypst q th label ts
      else successTypst p th cfg label ts) = notFoundTypst q th label ts
    rw [if_pos hn]

theorem formatTextOutputSuccess (p : PlayerInfo) (q : String) (cfg : Config)
    (label : String) (h : p.name ≠ "") :
    formatTextOutput (some p) q cfg label = jsTrimEnd (joinSep "\n" (textLines p cfg label)) := by
  show (if p.name = "" then notFoundText q label
    else jsTrimEnd (joinSep "\n" (textLines p cfg label))) = _
  rw [if_neg h]

theorem generateTypstCodeSuccess (p : PlayerInfo) (q : String) (th : TypstTheme)
    (cfg : Config) (label ts : String) (h : p.name ≠ "") :
    generateTypstCode (some p) q th cfg label ts = successTypst p th cfg label ts := by
  show (if p.name = "" then notFoundTypst q th label ts
    else successTypst p th cfg label ts) = _
  rw [if_neg h]

theorem notFoundTextSplit (q label : String) : ∃ a, notFoundText q label = a ++ q := by
  refine ⟨label ++ " 👤 玩家查询\n\n❌ 未找到玩家: ", ?_⟩
  unfold notFoundText
  rw [strAssoc]

theorem notFoundTypstSplit (q : String) (th : TypstTheme) (label ts : String) :
    ∃ a b, notFoundTypst q th label ts = a ++ (escapeTypstText q ++ b) := by
  refine ⟨pageSet "400pt" th ++ (textSet th ++ (headerPre th ++ (escapeTypstText label
    ++ (" 👤 玩家查询\n    ]\n  ]\n]\n\n#v(8pt)\n\n#block(\n  fill: "
      ++ (th.panelFill ++ (",\n  stroke: 1pt + " ++ (th.panelStroke
        ++ ",\n  radius: 4pt,\n  inset: 12pt,\n  width: 100%\n)[\n  #align(center)[\n    #text(size: 12pt)[❌ 未找到玩家: "))))))),
    "]\n  ]\n]\n\n#v(8pt)\n\n" ++ footerBlock th ts, ?_⟩
  unfold notFoundTypst
  simp only [strAssoc]

/-! ## Claim C4 -/

/-- C4 (amended): with an absent record or an empty name both formatters
take the not-found branch; the text output embeds the query verbatim, the
markup output embeds `escapeTypstText` of the query (identical to the
query exactly when no character of it is rewritten by the escaping); any
named record takes the full path — the guard is the only early exit. -/
theorem C4_not_found_branch (player : Option PlayerInfo) (q : String) (cfg : Config)
    (label : String) (th : TypstTheme) (ts : String) :
    (nameOf player = "" →
      formatTextOutput player q cfg label = notFoundText q label
      ∧ (∃ a, formatTextOutput player q cfg label = a ++ q)
      ∧ generateTypstCode player q th cfg label ts = notFoundTypst q th label ts
      ∧ (∃ a b, generateTypstCode player q th cfg label ts = a ++ (escapeTypstText q ++ b)))
    ∧ (∀ p, player = some p → p.name ≠ "" →
      formatTextOutput player q cfg label = jsTrimEnd (joinSep "\n" (textLines p cfg label))
      ∧ generateTypstCode player q th cfg label ts = successTypst p th cfg label ts)
    ∧ ((∀ c ∈ q.data, escCharSpec c = [c]) → escapeTypstText q = q) := by
  refine ⟨?_, ?_, ?_⟩
  · intro h
    refine ⟨formatTextOutputNotFound player q cfg label h, ?_,
      generateTypstCodeNotFound player q th cfg label ts h, ?_⟩
    · rw [formatTextOutputNotFound player q cfg label h]
      exact notFoundTextSplit q label
    · rw [generateTypstCodeNotFound player q th cfg label ts h]
      exact notFoundTypstSplit q th label ts
  · intro p hp hn
    subst hp
    exact ⟨formatTextOutputSuccess p q cfg label hn,
      generateTypstCodeSuccess p q th cfg label ts hn⟩
  · intro hq
    rw [escapeTypstTextEq]
    have : escapeL q.data = q.data := by
      rw [escapeLBind]
      calc q.data.flatMap escCharSpec
          = q.data.flatMap (fun c => [c]) := List.flatMap_congr hq
        _ = q.data := by
            induction q.data with
            | nil => rfl
            | cons a t ih => simp [List.flatMap_cons, ih]
    rw [this]

set_option maxRecDepth 8000 in
/-- C4 counterexample: the markup not-found document does not contain the
query string verbatim when the query holds characters the escaping
rewrites — for the query consisting of one carriage return, the document
contains no carriage return at all. -/
theorem C4_verbatim_counterexample :
    ¬ ∃ a b : String,
      generateTypstCode none "\r" wTheme wCfg "L" "t" = a ++ ("\r" ++ b) := by
  rintro ⟨a, b, h⟩
  have hc : '\r' ∈ (generateTypstCode none "\r" wTheme wCfg "L" "t").data := by
    rw [h, strDataAppend, strDataAppend]
    exact List.mem_append_right _ (List.mem_append_left _ (by decide))
  rw [show generateTypstCode none "\r" wTheme wCfg "L" "t" =
    notFoundTypst "\r" wTheme "L" "t" from rfl, notFoundTypstDecomp] at hc
  rw [strDataAppend, strDataAppend, strDataAppend] at hc
  rcases List.mem_append.mp hc with h1 | h2
  · exact absurd h1 (by decide)
  rcases List.mem_append.mp h2 with h3 | h4
  · exact absurd h3 (by decide)
  rcases List.mem_append.mp h4 with h5 | h6
  · exact absurd h5 (by decide)
  · exact absurd h6 (by decide)

theorem C4_not_found_branch_witness :
    formatTextOutput none "Steve" wCfg "L" = notFoundText "Steve" "L"
    ∧ escapeTypstText "abc" = "abc"
    ∧ formatTextOutput (some wPlayer) "q" wCfg "L" =
        jsTrimEnd (joinSep "\n" (textLines wPlayer wCfg "L")) :=
  ⟨((C4_not_found_branch none "Steve" wCfg "L" wTheme "t").1 rfl).1,
   (C4_not_found_branch none "abc" wCfg "L" wTheme "t").2.2 (by decide),
   ((C4_not_found_branch (some wPlayer) "q" wCfg "L" wTheme "t").2.1 wPlayer rfl
     (by decide)).1⟩

/-! ## Claim C5 -/

set_option maxRecDepth 8000 in
/-- C5 counterexample: the not-found and success documents already differ
inside the `#set page(...)` block — the page width is 400pt in one and
450pt in the other, so the page setup is not the same. -/
theorem C5_page_width_counterexample :
    (generateTypstCode none "q" wTheme wCfg "L" "t").data.take 23 ≠
      (generateTypstCode (some wPlayer) "q" wTheme wCfg "L" "t").data.take 23 := by
  rw [show generateTypstCode none "q" wTheme wCfg "L" "t" =
      notFoundTypst "q" wTheme "L" "t" from rfl, notFoundTypstDecomp,
    generateTypstCodeSuccess wPlayer "q" wTheme wCfg "L" "t" (by decide),
    successTypstDecomp]
  simp only [strDataAppend]
  rw [takeAppendOfLe 23 _ _ (by decide), takeAppendOfLe 23 _ _ (by decide)]
  decide

/-- C5 (amended): both documents share the text setup, the theme values
and the footer; the page setup differs in exactly the width value (400pt
not-found vs 450pt success) — only the middle content and that width
distinguish the two layouts. -/
theorem C5_not_found_layout (p : PlayerInfo) (q : String) (th : TypstTheme) (cfg : Config)
    (label ts : String) (hn : p.name ≠ "") :
    generateTypstCode none q th cfg label ts =
      pageSet "400pt" th ++ (textSet th ++ (notFoundMid q th label ++ footerBlock th ts))
    ∧ generateTypstCode (some p) q th cfg label ts =
      pageSet "450pt" th ++ (textSet th ++ (successMid p th cfg label ++ footerBlock th ts)) := by
  constructor
  · show notFoundTypst q th label ts = _
    exact notFoundTypstDecomp q th label ts
  · rw [generateTypstCodeSuccess p q th cfg label ts hn]
    exact successTypstDecomp p th cfg label ts

theorem C5_not_found_layout_witness :
    generateTypstCode none "q" wTheme wCfg "L" "t" =
      pageSet "400pt" wTheme ++ (textSet wTheme
        ++ (notFoundMid "q" wTheme "L" ++ footerBlock wTheme "t")) :=
  (C5_not_found_layout wPlayer "q" wTheme wCfg "L" "t" (by decide)).1

/-! ## Character-level facts about rendered numbers -/

theorem digitCharAscii (n : Nat) : (Nat.digitChar n).toNat < 128 := by
  by_cases h0 : n = 0
  · subst h0; decide
  by_cases h1 : n = 1
  · subst h1; decide
  by_cases h2 : n = 2
  · subst h2; decide
  by_cases h3 : n = 3
  · subst h3; decide
  by_cases h4 : n = 4
  · subst h4; decide
  by_cases h5 : n = 5
  · subst h5; decide
  by_cases h6 : n = 6
  · subst h6; decide
  by_cases h7 : n = 7
  · subst h7; decide
  by_cases h8 : n = 8
  · subst h8; decide
  by_cases h9 : n = 9
  · subst h9; decide
  by_cases h10 : n = 10
  · subst h10; decide
  by_cases h11 : n = 11
  · subst h11; decide
  by_cases h12 : n = 12
  · subst h12; decide
  by_cases h13 : n = 13
  · subst h13; decide
  by_cases h14 : n = 14
  · subst h14; decide
  by_cases h15 : n = 15
  · subst h15; decide
  have h : Nat.digitChar n = '*' := by
    unfold Nat.digitChar
    simp only [h0, h1, h2, h3, h4, h5, h6, h7, h8, h9, h10, h11, h12, h13, h14, h15, if_false]
  rw [h]
  decide

theorem toDigitsCoreAscii (fuel : Nat) : ∀ (n : Nat) (ds : List Char),
    (∀ c ∈ ds, c.toNat < 128) → ∀ c ∈ Nat.toDigitsCore 10 fuel n ds, c.toNat < 128 := by
  induction fuel with
  | zero =>
    intro n ds hds c hc
    simp only [Nat.toDigitsCore] at hc
    exact hds c hc
  | succ f ih =>
    intro n ds hds c hc
    by_cases h0 : n / 10 = 0
    · simp only [Nat.toDigitsCore, h0, if_true] at hc
      rcases List.mem_cons.mp hc with rfl | hc
      · exact digitCharAscii _
      · exact hds c hc
    · simp only [Nat.toDigitsCore, h0, if_false] at hc
      refine ih (n / 10) _ ?_ c hc
      intro x hx
      rcases List.mem_cons.mp hx with rfl | hx
      · exact digitCharAscii _
      · exact hds x hx

theorem natReprAscii (n : Nat) : ∀ c ∈ (Nat.repr n).data, c.toNat < 128 := by
  intro c hc
  have hd : (Nat.repr n).data = Nat.toDigits 10 n := rfl
  rw [hd] at hc
  exact toDigitsCoreAscii (n + 1) n [] (by intro x hx; simp at hx) c hc

theorem intToStringAscii (i : Int) : ∀ c ∈ (toString i).data, c.toNat < 128 := by
  intro c hc
  have hts : toString i = Int.repr i := rfl
  rw [hts] at hc
  cases i with
  | ofNat m => exact natReprAscii m c hc
  | negSucc m =>
    have hd : (Int.repr (Int.negSucc m)).data = "-".data ++ (Nat.repr (m + 1)).data := rfl
    rw [hd] at hc
    rcases List.mem_append.mp hc with hc | hc
    · simp at hc
      subst hc
      decide
    · exact natReprAscii (m + 1) c hc

/-! ## Generic membership lemmas for the section bodies -/

theorem neOfTakeNe (s t : String) (k : Nat) (h : s.data.take k ≠ t.data.take k) : s ≠ t :=
  fun he => h (he ▸ rfl)

theorem headSpace (lit : String) (hl : lit.data.head? = some ' ') :
    ∀ u, (lit ++ u).data.head? = some ' ' :=
  fun u => headAppendOfHead _ _ ' ' hl

theorem titleNe (label nm x : String) (hx : '👤' ∉ x.data) :
    label ++ (" 👤 玩家详情: " ++ nm) ≠ x := by
  intro h
  apply hx
  rw [← h, strDataAppend, strDataAppend]
  exact List.mem_append_right _ (List.mem_append_left _ (by decide))

theorem memTextChunk (x hd : String) (body : List String) :
    x ∈ textChunk hd body ↔ body ≠ [] ∧ (x = hd ∨ x ∈ body ∨ x = "") := by
  unfold textChunk
  split
  · simp [*]
  · simp only [List.mem_cons, List.mem_append, List.mem_singleton, *]
    constructor
    · intro h
      exact ⟨by assumption, by tauto⟩
    · intro h
      tauto

theorem memItemChunk (x hd : String) (body : List String) :
    x ∈ itemChunk hd body ↔ body ≠ [] ∧ (x = hd ∨ x ∈ body) := by
  unfold itemChunk
  split
  · simp [*]
  · simp only [List.mem_cons, *]
    constructor
    · intro h
      exact ⟨by assumption, by tauto⟩
    · intro h
      tauto

theorem memPchunk (x : String) (rows : List String) (panel : String) :
    x ∈ pchunk rows panel ↔ rows ≠ [] ∧ x = panel := by
  unfold pchunk
  split
  · simp [*]
  · simp [*]

theorem basicInfoAll (p : PlayerInfo) (cfg : Config) (P : String → Prop)
    (h1 : ∀ u, P ("  • XUID: " ++ u)) (h2 : ∀ u, P ("  • UUID: " ++ u))
    (h3 : ∀ u, P ("  • UniqueId: " ++ u)) (h4 : ∀ u, P ("  • 权限等级: " ++ u))
    (h5 : ∀ u, P ("  • OP: " ++ u)) (h6 : ∀ u, P ("  • 模拟玩家: " ++ u))
    (h7 : ∀ u, P ("  • 语言: " ++ u)) :
    ∀ s ∈ basicInfo p cfg, P s := by
  intro s hs
  unfold basicInfo at hs
  simp only [List.mem_append] at hs
  rcases hs with ((((((h | h) | h) | h) | h) | h) | h) <;>
    obtain ⟨-, rfl⟩ := (memPushIf _ _ _).mp h
  exacts [h1 _, h2 _, h3 _, h4 _, h5 _, h6 _, h7 _]

theorem gameStatusAll (p : PlayerInfo) (cfg : Config) (P : String → Prop)
    (h1 : ∀ u, P ("  • 游戏模式: " ++ u)) (h2 : ∀ u, P ("  • 生命值: " ++ u))
    (h3 : ∀ u, P ("  • 移动速度: " ++ u)) (h4 : ∀ u, P ("  • 状态: " ++ u)) :
    ∀ s ∈ gameStatus p cfg, P s := by
  intro s hs
  unfold gameStatus at hs
  simp only [List.mem_append] at hs
  rcases hs with (((h | h) | h) | h) <;>
    obtain ⟨-, rfl⟩ := (memPushIf _ _ _).mp h
  exacts [h1 _, h2 _, h3 _, h4 _]

theorem expInfoAll (p : PlayerInfo) (cfg : Config) (P : String → Prop)
    (h1 : ∀ u, P ("  • 等级: " ++ u)) (h2 : ∀ u, P ("  • 当前经验: " ++ u))
    (h3 : ∀ u, P ("  • 总经验: " ++ u)) (h4 : ∀ u, P ("  • 升级所需: " ++ u)) :
    ∀ s ∈ expInfo p cfg, P s := by
  intro s hs
  unfold expInfo at hs
  simp only [List.mem_append] at hs
  rcases hs with (((h | h) | h) | h) <;>
    obtain ⟨-, rfl⟩ := (memPushIf _ _ _).mp h
  exacts [h1 _, h2 _, h3 _, h4 _]

theorem posInfoAll (p : PlayerInfo) (cfg : Config) (P : String → Prop)
    (h1 : ∀ u, P ("  • 维度: " ++ u)) (h2 : ∀ u, P ("  • 精确坐标: " ++ u))
    (h3 : ∀ u, P ("  • 方块坐标: " ++ u)) (h4 : ∀ u, P ("  • 脚部坐标: " ++ u))
    (h5 : ∀ u, P ("  • 上次死亡: " ++ u)) (h6 : ∀ u, P ("  • 重生点: " ++ u)) :
    ∀ s ∈ posInfo p cfg, P s := by
  intro s hs
  unfold posInfo at hs
  simp only [List.mem_append] at hs
  rcases hs with (((((h | h) | h) | h) | h) | h) <;>
    · obtain ⟨a, -, h⟩ := (memOptList _ _ _).mp h
      obtain ⟨-, rfl⟩ := (memPushIf _ _ _).mp h
      first
      | exact h1 _
      | exact h2 _
      | exact h3 _
      | exact h4 _
      | exact h5 _
      | exact h6 _

theorem envInfoAll (p : PlayerInfo) (cfg : Config) (P : String → Prop)
    (h1 : ∀ u, P ("  • 生物群系: " ++ u)) (h2 : ∀ u, P ("  • 脚下方块: " ++ u)) :
    ∀ s ∈ envInfo p cfg, P s := by
  intro s hs
  unfold envInfo at hs
  simp only [List.mem_append] at hs
  rcases hs with h | h <;>
    · obtain ⟨a, -, h⟩ := (memOptList _ _ _).mp h
      obtain ⟨-, rfl⟩ := (memPushIf _ _ _).mp h
      first
      | exact h1 _
      | exact h2 _

theorem deviceInfoAll (p : PlayerInfo) (cfg : Config) (P : String → Prop)
    (h1 : ∀ u, P ("  • 操作系统: " ++ u)) (h2 : ∀ u, P ("  • 输入方式: " ++ u))
    (h3 : ∀ u, P ("  • IP 地址: " ++ u)) (h4 : ∀ u, P ("  • 客户端 ID: " ++ u))
    (h5 : ∀ u, P ("  • 服务器地址: " ++ u)) (h6 : ∀ u, P ("  • 平均延迟: " ++ u))
    (h7 : ∀ u, P ("  • 最近延迟: " ++ u)) (h8 : ∀ u, P ("  • 平均丢包率: " ++ u))
    (h9 : ∀ u, P ("  • 最近丢包率: " ++ u)) :
    ∀ s ∈ deviceInfo p cfg, P s := by
  intro s hs
  unfold deviceInfo at hs
  split at hs
  · obtain ⟨d, -, h⟩ := (memOptList _ _ _).mp hs
    simp only [List.mem_append] at h
    rcases h with ((((((((h | h) | h) | h) | h) | h) | h) | h) | h) <;>
      obtain ⟨-, rfl⟩ := (memPushIf _ _ _).mp h
    exacts [h1 _, h2 _, h3 _, h4 _, h5 _, h6 _, h7 _, h8 _, h9 _]
  · simp at hs

theorem itemInfoAll (p : PlayerInfo) (cfg : Config) (P : String → Prop)
    (h1 : ∀ u, P ("  • 主手物品: " ++ u)) (h2 : ∀ u, P ("  • 副手物品: " ++ u))
    (h3 : ∀ u, P ("  • 装备: " ++ u)) (h4 : ∀ u, P ("  • 标签: " ++ u)) :
    ∀ s ∈ itemInfo p cfg, P s := by
  intro s hs
  unfold itemInfo at hs
  simp only [List.mem_append] at hs
  rcases hs with (((h | h) | h) | h) <;>
    · obtain ⟨a, -, h⟩ := (memOptList _ _ _).mp h
      obtain ⟨-, rfl⟩ := (memPushIf _ _ _).mp h
      first
      | exact h1 _
      | exact h2 _
      | exact h3 _
      | exact h4 _

/-! ## Every body line of the text formatter starts with two spaces -/

theorem basicInfoHeads (p : PlayerInfo) (cfg : Config) :
    ∀ s ∈ basicInfo p cfg, s.data.head? = some ' ' :=
  basicInfoAll p cfg _ (headSpace _ (by decide)) (headSpace _ (by decide))
    (headSpace _ (by decide)) (headSpace _ (by decide)) (headSpace _ (by decide))
    (headSpace _ (by decide)) (headSpace _ (by decide))

theorem gameStatusHeads (p : PlayerInfo) (cfg : Config) :
    ∀ s ∈ gameStatus p cfg, s.data.head? = some ' ' :=
  gameStatusAll p cfg _ (headSpace _ (by decide)) (headSpace _ (by decide))
    (headSpace _ (by decide)) (headSpace _ (by decide))

theorem expInfoHeads (p : PlayerInfo) (cfg : Config) :
    ∀ s ∈ expInfo p cfg, s.data.head? = some ' ' :=
  expInfoAll p cfg _ (headSpace _ (by decide)) (headSpace _ (by decide))
    (headSpace _ (by decide)) (headSpace _ (by decide))

theorem posInfoHeads (p : PlayerInfo) (cfg : Config) :
    ∀ s ∈ posInfo p cfg, s.data.head? = some ' ' :=
  posInfoAll p cfg _ (headSpace _ (by decide)) (headSpace _ (by decide))
    (headSpace _ (by decide)) (headSpace _ (by decide)) (headSpace _ (by decide))
    (headSpace _ (by decide))

theorem envInfoHeads (p : PlayerInfo) (cfg : Config) :
    ∀ s ∈ envInfo p cfg, s.data.head? = some ' ' :=
  envInfoAll p cfg _ (headSpace _ (by decide)) (headSpace _ (by decide))

theorem deviceInfoHeads (p : PlayerInfo) (cfg : Config) :
    ∀ s ∈ deviceInfo p cfg, s.data.head? = some ' ' :=
  deviceInfoAll p cfg _ (headSpace _ (by decide)) (headSpace _ (by decide))
    (headSpace _ (by decide)) (headSpace _ (by decide)) (headSpace _ (by decide))
    (headSpace _ (by decide)) (headSpace _ (by decide)) (headSpace _ (by decide))
    (headSpace _ (by decide))

theorem itemInfoHeads (p : PlayerInfo) (cfg : Config) :
    ∀ s ∈ itemInfo p cfg, s.data.head? = some ' ' :=
  itemInfoAll p cfg _ (headSpace _ (by decide)) (headSpace _ (by decide))
    (headSpace _ (by decide)) (headSpace _ (by decide))

theorem headNotMemChunk (x hd : String) (body : List String)
    (hx : ¬ x.data.head? = some ' ') (hne : x ≠ hd) (hemp : x ≠ "")
    (hb : ∀ s ∈ body, s.data.head? = some ' ') : x ∉ textChunk hd body := by
  intro h
  rcases (memTextChunk _ _ _).mp h with ⟨-, h | h | h⟩
  · exact hne h
  · exact hx (hb x h)
  · exact hemp h

theorem headNotMemItemChunk (x hd : String) (body : List String)
    (hx : ¬ x.data.head? = some ' ') (hne : x ≠ hd)
    (hb : ∀ s ∈ body, s.data.head? = some ' ') : x ∉ itemChunk hd body := by
  intro h
  rcases (memItemChunk _ _ _).mp h with ⟨-, h | h⟩
  · exact hne h
  · exact hx (hb x h)

/-! ## A themed text section's heading is present iff the section is
nonempty -/

theorem basicHeadingIff (p : PlayerInfo) (cfg : Config) (label : String) :
    "📋 基本信息:" ∈ textLines p cfg label ↔ basicInfo p cfg ≠ [] := by
  unfold textLines
  constructor
  · intro h
    rcases List.mem_cons.mp h with h | h
    · exact absurd h.symm (titleNe label p.name _ (by decide))
    rcases List.mem_cons.mp h with h | h
    · exact absurd h (by decide)
    simp only [List.mem_append] at h
    rcases h with ((((((h | h) | h) | h) | h) | h) | h)
    · exact ((memTextChunk _ _ _).mp h).1
    · exact absurd h (headNotMemChunk _ _ _ (by decide) (by decide) (by decide)
        (gameStatusHeads p cfg))
    · exact absurd h (headNotMemChunk _ _ _ (by decide) (by decide) (by decide)
        (expInfoHeads p cfg))
    · exact absurd h (headNotMemChunk _ _ _ (by decide) (by decide) (by decide)
        (posInfoHeads p cfg))
    · exact absurd h (headNotMemChunk _ _ _ (by decide) (by decide) (by decide)
        (envInfoHeads p cfg))
    · exact absurd h (headNotMemChunk _ _ _ (by decide) (by decide) (by decide)
        (deviceInfoHeads p cfg))
    · exact absurd h (headNotMemItemChunk _ _ _ (by decide) (by decide)
        (itemInfoHeads p cfg))
  · intro hne
    refine List.mem_cons_of_mem _ (List.mem_cons_of_mem _ ?_)
    simp only [List.mem_append]
    exact Or.inl (Or.inl (Or.inl (Or.inl (Or.inl (Or.inl
      ((memTextChunk _ _ _).mpr ⟨hne, Or.inl rfl⟩))))))

theorem gameHeadingIff (p : PlayerInfo) (cfg : Config) (label : String) :
    "🎮 游戏状态:" ∈ textLines p cfg label ↔ gameStatus p cfg ≠ [] := by
  unfold textLines
  constructor
  · intro h
    rcases List.mem_cons.mp h with h | h
    · exact absurd h.symm (titleNe label p.name _ (by decide))
    rcases List.mem_cons.mp h with h | h
    · exact absurd h (by decide)
    simp only [List.mem_append] at h
    rcases h with ((((((h | h) | h) | h) | h) | h) | h)
    · exact absurd h (headNotMemChunk _ _ _ (by decide) (by decide) (by decide)
        (basicInfoHeads p cfg))
    · exact ((memTextChunk _ _ _).mp h).1
    · exact absurd h (headNotMemChunk _ _ _ (by decide) (by decide) (by decide)
        (expInfoHeads p cfg))
    · exact absurd h (headNotMemChunk _ _ _ (by decide) (by decide) (by decide)
        (posInfoHeads p cfg))
    · exact absurd h (headNotMemChunk _ _ _ (by decide) (by decide) (by decide)
        (envInfoHeads p cfg))
    · exact absurd h (headNotMemChunk _ _ _ (by decide) (by decide) (by decide)
        (deviceInfoHeads p cfg))
    · exact absurd h (headNotMemItemChunk _ _ _ (by decide) (by decide)
        (itemInfoHeads p cfg))
  · intro hne
    refine List.mem_cons_of_mem _ (List.mem_cons_of_mem _ ?_)
    simp only [List.mem_append]
    exact Or.inl (Or.inl (Or.inl (Or.inl (Or.inl (Or.inr
      ((memTextChunk _ _ _).mpr ⟨hne, Or.inl rfl⟩))))))

theorem expHeadingIff (p : PlayerInfo) (cfg : Config) (label : String) :
    "⭐ 经验信息:" ∈ textLines p cfg label ↔ expInfo p cfg ≠ [] := by
  unfold textLines
  constructor
  · intro h
    rcases List.mem_cons.mp h with h | h
    · exact absurd h.symm (titleNe label p.name _ (by decide))
    rcases List.mem_cons.mp h with h | h
    · exact absurd h (by decide)
    simp only [List.mem_append] at h
    rcases h with ((((((h | h) | h) | h) | h) | h) | h)
    · exact absurd h (headNotMemChunk _ _ _ (by decide) (by decide) (by decide)
        (basicInfoHeads p cfg))
    · exact absurd h (headNotMemChunk _ _ _ (by decide) (by decide) (by decide)
        (gameStatusHeads p cfg))
    · exact ((memTextChunk _ _ _).mp h).1
    · exact absurd h (headNotMemChunk _ _ _ (by decide) (by decide) (by decide)
        (posInfoHeads p cfg))
    · exact absurd h (headNotMemChunk _ _ _ (by decide) (by decide) (by decide)
        (envInfoHeads p cfg))
    · exact absurd h (headNotMemChunk _ _ _ (by decide) (by decide) (by decide)
        (deviceInfoHeads p cfg))
    · exact absurd h (headNotMemItemChunk _ _ _ (by decide) (by decide)
        (itemInfoHeads p cfg))
  · intro hne
    refine List.mem_cons_of_mem _ (List.mem_cons_of_mem _ ?_)
    simp only [List.mem_append]
    exact Or.inl (Or.inl (Or.inl (Or.inl (Or.inr
      ((memTextChunk _ _ _).mpr ⟨hne, Or.inl rfl⟩)))))

theorem posHeadingIff (p : PlayerInfo) (cfg : Config) (label : String) :
    "📍 位置信息:" ∈ textLines p cfg label ↔ posInfo p cfg ≠ [] := by
  unfold textLines
  constructor
  · intro h
    rcases List.mem_cons.mp h with h | h
    · exact absurd h.symm (titleNe label p.name _ (by decide))
    rcases List.mem_cons.mp h with h | h
    · exact absurd h (by decide)
    simp only [List.mem_append] at h
    rcases h with ((((((h | h) | h) | h) | h) | h) | h)
    · exact absurd h (headNotMemChunk _ _ _ (by decide) (by decide) (by decide)
        (basicInfoHeads p cfg))
    · exact absurd h (headNotMemChunk _ _ _ (by decide) (by decide) (by decide)
        (gameStatusHeads p cfg))
    · exact absurd h (headNotMemChunk _ _ _ (by decide) (by decide) (by decide)
        (expInfoHeads p cfg))
    · exact ((memTextChunk _ _ _).mp h).1
    · exact absurd h (headNotMemChunk _ _ _ (by decide) (by decide) (by decide)
        (envInfoHeads p cfg))
    · exact absurd h (headNotMemChunk _ _ _ (by decide) (by decide) (by decide)
        (deviceInfoHeads p cfg))
    · exact absurd h (headNotMemItemChunk _ _ _ (by decide) (by decide)
        (itemInfoHeads p cfg))
  · intro hne
    refine List.mem_cons_of_mem _ (List.mem_cons_of_mem _ ?_)
    simp only [List.mem_append]
    exact Or.inl (Or.inl (Or.inl (Or.inr
      ((memTextChunk _ _ _).mpr ⟨hne, Or.inl rfl⟩))))

theorem envHeadingIff (p : PlayerInfo) (cfg : Config) (label : String) :
    "🌍 环境信息:" ∈ textLines p cfg label ↔ envInfo p cfg ≠ [] := by
  unfold textLines
  constructor
  · intro h
    rcases List.mem_cons.mp h with h | h
    · exact absurd h.symm (titleNe label p.name _ (by decide))
    rcases List.mem_cons.mp h with h | h
    · exact absurd h (by decide)
    simp only [List.mem_append] at h
    rcases h with ((((((h | h) | h) | h) | h) | h) | h)
    · exact absurd h (headNotMemChunk _ _ _ (by decide) (by decide) (by decide)
        (basicInfoHeads p cfg))
    · exact absurd h (headNotMemChunk _ _ _ (by decide) (by decide) (by decide)
        (gameStatusHeads p cfg))
    · exact absurd h (headNotMemChunk _ _ _ (by decide) (by decide) (by decide)
        (expInfoHeads p cfg))
    · exact absurd h (headNotMemChunk _ _ _ (by decide) (by decide) (by decide)
        (posInfoHeads p cfg))
    · exact ((memTextChunk _ _ _).mp h).1
    · exact absurd h (headNotMemChunk _ _ _ (by decide) (by decide) (by decide)
        (deviceInfoHeads p cfg))
    · exact absurd h (headNotMemItemChunk _ _ _ (by decide) (by decide)
        (itemInfoHeads p cfg))
  · intro hne
    refine List.mem_cons_of_mem _ (List.mem_cons_of_mem _ ?_)
    simp only [List.mem_append]
    exact Or.inl (Or.inl (Or.inr ((memTextChunk _ _ _).mpr ⟨hne, Or.inl rfl⟩)))

theorem deviceHeadingIff (p : PlayerInfo) (cfg : Config) (label : String) :
    "📱 设备信息:" ∈ textLines p cfg label ↔ deviceInfo p cfg ≠ [] := by
  unfold textLines
  constructor
  · intro h
    rcases List.mem_cons.mp h with h | h
    · exact absurd h.symm (titleNe label p.name _ (by decide))
    rcases List.mem_cons.mp h with h | h
    · exact absurd h (by decide)
    simp only [List.mem_append] at h
    rcases h with ((((((h | h) | h) | h) | h) | h) | h)
    · exact absurd h (headNotMemChunk _ _ _ (by decide) (by decide) (by decide)
        (basicInfoHeads p cfg))
    · exact absurd h (headNotMemChunk _ _ _ (by decide) (by decide) (by decide)
        (gameStatusHeads p cfg))
    · exact absurd h (headNotMemChunk _ _ _ (by decide) (by decide) (by decide)
        (expInfoHeads p cfg))
    · exact absurd h (headNotMemChunk _ _ _ (by decide) (by decide) (by decide)
        (posInfoHeads p cfg))
    · exact absurd h (headNotMemChunk _ _ _ (by decide) (by decide) (by decide)
        (envInfoHeads p cfg))
    · exact ((memTextChunk _ _ _).mp h).1
    · exact absurd h (headNotMemItemChunk _ _ _ (by decide) (by decide)
        (itemInfoHeads p cfg))
  · intro hne
    refine List.mem_cons_of_mem _ (List.mem_cons_of_mem _ ?_)
    simp only [List.mem_append]
    exact Or.inl (Or.inr ((memTextChunk _ _ _).mpr ⟨hne, Or.inl rfl⟩))

theorem itemsHeadingIff (p : PlayerInfo) (cfg : Config) (label : String) :
    "🎒 物品信息:" ∈ textLines p cfg label ↔ itemInfo p cfg ≠ [] := by
  unfold textLines
  constructor
  · intro h
    rcases List.mem_cons.mp h with h | h
    · exact absurd h.symm (titleNe label p.name _ (by decide))
    rcases List.mem_cons.mp h with h | h
    · exact absurd h (by decide)
    simp only [List.mem_append] at h
    rcases h with ((((((h | h) | h) | h) | h) | h) | h)
    · exact absurd h (headNotMemChunk _ _ _ (by decide) (by decide) (by decide)
        (basicInfoHeads p cfg))
    · exact absurd h (headNotMemChunk _ _ _ (by decide) (by decide) (by decide)
        (gameStatusHeads p cfg))
    · exact absurd h (headNotMemChunk _ _ _ (by decide) (by decide) (by decide)
        (expInfoHeads p cfg))
    · exact absurd h (headNotMemChunk _ _ _ (by decide) (by decide) (by decide)
        (posInfoHeads p cfg))
    · exact absurd h (headNotMemChunk _ _ _ (by decide) (by decide) (by decide)
        (envInfoHeads p cfg))
    · exact absurd h (headNotMemChunk _ _ _ (by decide) (by decide) (by decide)
        (deviceInfoHeads p cfg))
    · exact ((memItemChunk _ _ _).mp h).1
  · intro hne
    refine List.mem_cons_of_mem _ (List.mem_cons_of_mem _ ?_)
    simp only [List.mem_append]
    exact Or.inr ((memItemChunk _ _ _).mpr ⟨hne, Or.inl rfl⟩)

/-! ## Distinct section panels are distinct strings (same theme) -/

theorem tablePanelNeTable (th : TypstTheme) (h1 h2 : String) (r1 r2 : List String)
    (c d : Char) (e1 : h1.data.head? = some c) (e2 : h2.data.head? = some d) (hcd : c ≠ d) :
    tablePanel th h1 r1 ≠ tablePanel th h2 r2 := by
  intro he
  unfold tablePanel at he
  have h3 := strLeftCancel _ _ _ he
  exact neOfHeadNe _ _ c d (headAppendOfHead _ _ c e1) (headAppendOfHead _ _ d e2) hcd h3

theorem tablePanelNeGrid (th : TypstTheme) (h1 h2 : String) (r1 r2 : List String)
    (c d : Char) (e1 : h1.data.head? = some c) (e2 : h2.data.head? = some d) (hcd : c ≠ d) :
    tablePanel th h1 r1 ≠ gridPanel th h2 r2 := by
  intro he
  unfold tablePanel gridPanel at he
  have h3 := strLeftCancel _ _ _ he
  exact neOfHeadNe _ _ c d (headAppendOfHead _ _ c e1) (headAppendOfHead _ _ d e2) hcd h3

theorem gridPanelNeTable (th : TypstTheme) (h1 h2 : String) (r1 r2 : List String)
    (c d : Char) (e1 : h1.data.head? = some c) (e2 : h2.data.head? = some d) (hcd : c ≠ d) :
    gridPanel th h1 r1 ≠ tablePanel th h2 r2 := by
  intro he
  unfold tablePanel gridPanel at he
  have h3 := strLeftCancel _ _ _ he
  exact neOfHeadNe _ _ c d (headAppendOfHead _ _ c e1) (headAppendOfHead _ _ d e2) hcd h3

theorem gridPanelNeGrid (th : TypstTheme) (h1 h2 : String) (r1 r2 : List String)
    (c d : Char) (e1 : h1.data.head? = some c) (e2 : h2.data.head? = some d) (hcd : c ≠ d) :
    gridPanel th h1 r1 ≠ gridPanel th h2 r2 := by
  intro he
  unfold gridPanel at he
  have h3 := strLeftCancel _ _ _ he
  exact neOfHeadNe _ _ c d (headAppendOfHead _ _ c e1) (headAppendOfHead _ _ d e2) hcd h3

/-! ## A themed markup panel is present iff its section contributed rows -/

theorem basicPanelIff (p : PlayerInfo) (th : TypstTheme) (cfg : Config) :
    tablePanel th "📋 基本信息" (basicInfoRows p cfg) ∈ typstPanels p th cfg ↔
      basicInfoRows p cfg ≠ [] := by
  unfold typstPanels
  constructor
  · intro h
    simp only [List.mem_append] at h
    rcases h with (((((h | h) | h) | h) | h) | h)
    · exact ((memPchunk _ _ _).mp h).1
    · exact absurd ((memPchunk _ _ _).mp h).2
        (tablePanelNeGrid th _ _ _ _ '📋' '🎮' (by decide) (by decide) (by decide))
    · exact absurd ((memPchunk _ _ _).mp h).2
        (tablePanelNeGrid th _ _ _ _ '📋' '⭐' (by decide) (by decide) (by decide))
    · exact absurd ((memPchunk _ _ _).mp h).2
        (tablePanelNeTable th _ _ _ _ '📋' '📍' (by decide) (by decide) (by decide))
    · exact absurd ((memPchunk _ _ _).mp h).2
        (tablePanelNeTable th _ _ _ _ '📋' '🌍' (by decide) (by decide) (by decide))
    · exact absurd ((memPchunk _ _ _).mp h).2
        (tablePanelNeTable th _ _ _ _ '📋' '📱' (by decide) (by decide) (by decide))
  · intro hne
    simp only [List.mem_append]
    exact Or.inl (Or.inl (Or.inl (Or.inl (Or.inl ((memPchunk _ _ _).mpr ⟨hne, rfl⟩)))))

theorem gamePanelIff (p : PlayerInfo) (th : TypstTheme) (cfg : Config) :
    gridPanel th "🎮 游戏状态" (gameStatusItems p cfg) ∈ typstPanels p th cfg ↔
      gameStatusItems p cfg ≠ [] := by
  unfold typstPanels
  constructor
  · intro h
    simp only [List.mem_append] at h
    rcases h with (((((h | h) | h) | h) | h) | h)
    · exact absurd ((memPchunk _ _ _).mp h).2
        (gridPanelNeTable th _ _ _ _ '🎮' '📋' (by decide) (by decide) (by decide))
    · exact ((memPchunk _ _ _).mp h).1
    · exact absurd ((memPchunk _ _ _).mp h).2
        (gridPanelNeGrid th _ _ _ _ '🎮' '⭐' (by decide) (by decide) (by decide))
    · exact absurd ((memPchunk _ _ _).mp h).2
        (gridPanelNeTable th _ _ _ _ '🎮' '📍' (by decide) (by decide) (by decide))
    · exact absurd ((memPchunk _ _ _).mp h).2
        (gridPanelNeTable th _ _ _ _ '🎮' '🌍' (by decide) (by decide) (by decide))
    · exact absurd ((memPchunk _ _ _).mp h).2
        (gridPanelNeTable th _ _ _ _ '🎮' '📱' (by decide) (by decide) (by decide))
  · intro hne
    simp only [List.mem_append]
    exact Or.inl (Or.inl (Or.inl (Or.inl (Or.inr ((memPchunk _ _ _).mpr ⟨hne, rfl⟩)))))

theorem expPanelIff (p : PlayerInfo) (th : TypstTheme) (cfg : Config) :
    gridPanel th "⭐ 经验信息" (expItems p cfg) ∈ typstPanels p th cfg ↔
      expItems p cfg ≠ [] := by
  unfold typstPanels
  constructor
  · intro h
    simp only [List.mem_append] at h
    rcases h with (((((h | h) | h) | h) | h) | h)
    · exact absurd ((memPchunk _ _ _).mp h).2
        (gridPanelNeTable th _ _ _ _ '⭐' '📋' (by decide) (by decide) (by decide))
    · exact absurd ((memPchunk _ _ _).mp h).2
        (gridPanelNeGrid th _ _ _ _ '⭐' '🎮' (by decide) (by decide) (by decide))
    · exact ((memPchunk _ _ _).mp h).1
    · exact absurd ((memPchunk _ _ _).mp h).2
        (gridPanelNeTable th _ _ _ _ '⭐' '📍' (by decide) (by decide) (by decide))
    · exact absurd ((memPchunk _ _ _).mp h).2
        (gridPanelNeTable th _ _ _ _ '⭐' '🌍' (by decide) (by decide) (by decide))
    · exact absurd ((memPchunk _ _ _).mp h).2
        (gridPanelNeTable th _ _ _ _ '⭐' '📱' (by decide) (by decide) (by decide))
  · intro hne
    simp only [List.mem_append]
    exact Or.inl (Or.inl (Or.inl (Or.inr ((memPchunk _ _ _).mpr ⟨hne, rfl⟩))))

theorem posPanelIff (p : PlayerInfo) (th : TypstTheme) (cfg : Config) :
    tablePanel th "📍 位置信息" (posInfoRows p cfg) ∈ typstPanels p th cfg ↔
      posInfoRows p cfg ≠ [] := by
  unfold typstPanels
  constructor
  · intro h
    simp only [List.mem_append] at h
    rcases h with (((((h | h) | h) | h) | h) | h)
    · exact absurd ((memPchunk _ _ _).mp h).2
        (tablePanelNeTable th _ _ _ _ '📍' '📋' (by decide) (by decide) (by decide))
    · exact absurd ((memPchunk _ _ _).mp h).2
        (tablePanelNeGrid th _ _ _ _ '📍' '🎮' (by decide) (by decide) (by decide))
    · exact absurd ((memPchunk _ _ _).mp h).2
        (tablePanelNeGrid th _ _ _ _ '📍' '⭐' (by decide) (by decide) (by decide))
    · exact ((memPchunk _ _ _).mp h).1
    · exact absurd ((memPchunk _ _ _).mp h).2
        (tablePanelNeTable th _ _ _ _ '📍' '🌍' (by decide) (by decide) (by decide))
    · exact absurd ((memPchunk _ _ _).mp h).2
        (tablePanelNeTable th _ _ _ _ '📍' '📱' (by decide) (by decide) (by decide))
  · intro hne
    simp only [List.mem_append]
    exact Or.inl (Or.inl (Or.inr ((memPchunk _ _ _).mpr ⟨hne, rfl⟩)))

theorem envPanelIff (p : PlayerInfo) (th : TypstTheme) (cfg : Config) :
    tablePanel th "🌍 环境信息" (envInfoRows p cfg) ∈ typstPanels p th cfg ↔
      envInfoRows p cfg ≠ [] := by
  unfold typstPanels
  constructor
  · intro h
    simp only [List.mem_append] at h
    rcases h with (((((h | h) | h) | h) | h) | h)
    · exact absurd ((memPchunk _ _ _).mp h).2
        (tablePanelNeTable th _ _ _ _ '🌍' '📋' (by decide) (by decide) (by decide))
    · exact absurd ((memPchunk _ _ _).mp h).2
        (tablePanelNeGrid th _ _ _ _ '🌍' '🎮' (by decide) (by decide) (by decide))
    · exact absurd ((memPchunk _ _ _).mp h).2
        (tablePanelNeGrid th _ _ _ _ '🌍' '⭐' (by decide) (by decide) (by decide))
    · exact absurd ((memPchunk _ _ _).mp h).2
        (tablePanelNeTable th _ _ _ _ '🌍' '📍' (by decide) (by decide) (by decide))
    · exact ((memPchunk _ _ _).mp h).1
    · exact absurd ((memPchunk _ _ _).mp h).2
        (tablePanelNeTable th _ _ _ _ '🌍' '📱' (by decide) (by decide) (by decide))
  · intro hne
    simp only [List.mem_append]
    exact Or.inl (Or.inr ((memPchunk _ _ _).mpr ⟨hne, rfl⟩))

theorem devicePanelIff (p : PlayerInfo) (th : TypstTheme) (cfg : Config) :
    tablePanel th "📱 设备信息" (deviceInfoRows p cfg) ∈ typstPanels p th cfg ↔
      deviceInfoRows p cfg ≠ [] := by
  unfold typstPanels
  constructor
  · intro h
    simp only [List.mem_append] at h
    rcases h with (((((h | h) | h) | h) | h) | h)
    · exact absurd ((memPchunk _ _ _).mp h).2
        (tablePanelNeTable th _ _ _ _ '📱' '📋' (by decide) (by decide) (by decide))
    · exact absurd ((memPchunk _ _ _).mp h).2
        (tablePanelNeGrid th _ _ _ _ '📱' '🎮' (by decide) (by decide) (by decide))
    · exact absurd ((memPchunk _ _ _).mp h).2
        (tablePanelNeGrid th _ _ _ _ '📱' '⭐' (by decide) (by decide) (by decide))
    · exact absurd ((memPchunk _ _ _).mp h).2
        (tablePanelNeTable th _ _ _ _ '📱' '📍' (by decide) (by decide) (by decide))
    · exact absurd ((memPchunk _ _ _).mp h).2
        (tablePanelNeTable th _ _ _ _ '📱' '🌍' (by decide) (by decide) (by decide))
    · exact ((memPchunk _ _ _).mp h).1
  · intro hne
    simp only [List.mem_append]
    exact Or.inr ((memPchunk _ _ _).mpr ⟨hne, rfl⟩)

/-! ## Claim C6 -/

/-- C6: in both formatters a themed section appears (its heading line in
the text lines, its bordered panel in the panel list) iff the section
produced at least one line/row; in particular disabling every
field-enabling flag of the basic-info section removes its heading and its
panel from both outputs. -/
theorem C6_section_suppression (p : PlayerInfo) (cfg : Config) (label : String)
    (th : TypstTheme) :
    ("📋 基本信息:" ∈ textLines p cfg label ↔ basicInfo p cfg ≠ [])
    ∧ ("🎮 游戏状态:" ∈ textLines p cfg label ↔ gameStatus p cfg ≠ [])
    ∧ ("⭐ 经验信息:" ∈ textLines p cfg label ↔ expInfo p cfg ≠ [])
    ∧ ("📍 位置信息:" ∈ textLines p cfg label ↔ posInfo p cfg ≠ [])
    ∧ ("🌍 环境信息:" ∈ textLines p cfg label ↔ envInfo p cfg ≠ [])
    ∧ ("📱 设备信息:" ∈ textLines p cfg label ↔ deviceInfo p cfg ≠ [])
    ∧ ("🎒 物品信息:" ∈ textLines p cfg label ↔ itemInfo p cfg ≠ [])
    ∧ (tablePanel th "📋 基本信息" (basicInfoRows p cfg) ∈ typstPanels p th cfg ↔
        basicInfoRows p cfg ≠ [])
    ∧ (gridPanel th "🎮 游戏状态" (gameStatusItems p cfg) ∈ typstPanels p th cfg ↔
        gameStatusItems p cfg ≠ [])
    ∧ (gridPanel th "⭐ 经验信息" (expItems p cfg) ∈ typstPanels p th cfg ↔
        expItems p cfg ≠ [])
    ∧ (tablePanel th "📍 位置信息" (posInfoRows p cfg) ∈ typstPanels p th cfg ↔
        posInfoRows p cfg ≠ [])
    ∧ (tablePanel th "🌍 环境信息" (envInfoRows p cfg) ∈ typstPanels p th cfg ↔
        envInfoRows p cfg ≠ [])
    ∧ (tablePanel th "📱 设备信息" (deviceInfoRows p cfg) ∈ typstPanels p th cfg ↔
        deviceInfoRows p cfg ≠ [])
    ∧ ((isFieldEnabled cfg "xuid" = false ∧ isFieldEnabled cfg "uuid" = false
        ∧ isFieldEnabled cfg "uniqueId" = false ∧ isFieldEnabled cfg "permLevel" = false
        ∧ isFieldEnabled cfg "isOP" = false ∧ isFieldEnabled cfg "isSimulatedPlayer" = false
        ∧ isFieldEnabled cfg "langCode" = false) →
        "📋 基本信息:" ∉ textLines p cfg label
        ∧ tablePanel th "📋 基本信息" (basicInfoRows p cfg) ∉ typstPanels p th cfg) := by
  refine ⟨basicHeadingIff p cfg label, gameHeadingIff p cfg label, expHeadingIff p cfg label,
    posHeadingIff p cfg label, envHeadingIff p cfg label, deviceHeadingIff p cfg label,
    itemsHeadingIff p cfg label, basicPanelIff p th cfg, gamePanelIff p th cfg,
    expPanelIff p th cfg, posPanelIff p th cfg, envPanelIff p th cfg,
    devicePanelIff p th cfg, ?_⟩
  intro hoff
  obtain ⟨e1, e2, e3, e4, e5, e6, e7⟩ := hoff
  have hb : basicInfo p cfg = [] := by
    unfold basicInfo
    rw [e1, e2, e3, e4, e5, e6, e7]
    rfl
  have hr : basicInfoRows p cfg = [] := by
    unfold basicInfoRows
    rw [e1, e2, e3, e4, e6, e7]
    rfl
  constructor
  · intro hmem
    exact (basicHeadingIff p cfg label).mp hmem hb
  · intro hmem
    exact (basicPanelIff p th cfg).mp hmem hr

def wCfgOff : Config :=
  { playerFieldFilters :=
      [{ key := "xuid", enabled := false }, { key := "uuid", enabled := false },
       { key := "uniqueId", enabled := false }, { key := "permLevel", enabled := false },
       { key := "isOP", enabled := false }, { key := "isSimulatedPlayer", enabled := false },
       { key := "langCode", enabled := false }],
    defaultOutputModes := [] }

theorem C6_section_suppression_witness :
    "📋 基本信息:" ∉ textLines wPlayer wCfgOff "L"
    ∧ tablePanel wTheme "📋 基本信息" (basicInfoRows wPlayer wCfgOff) ∉
        typstPanels wPlayer wTheme wCfgOff :=
  (C6_section_suppression wPlayer wCfgOff "L" wTheme).2.2.2.2.2.2.2.2.2.2.2.2.2
    ⟨by decide, by decide, by decide, by decide, by decide, by decide, by decide⟩

/-! ## Claim C10 -/

theorem healthLineHead (p : PlayerInfo) : (healthLine p).data.head? = some ' ' := by
  unfold healthLine
  exact headAppendOfHead _ _ ' ' (by decide)

theorem healthLineNeEmpty (p : PlayerInfo) : healthLine p ≠ "" := by
  unfold healthLine
  apply neOfTakeNe _ _ 1
  rw [strDataAppend, takeAppendOfLe 1 _ _ (by decide)]
  decide

theorem userGlyphNotMemHealthLine (p : PlayerInfo) : '👤' ∉ (healthLine p).data := by
  intro h
  unfold healthLine at h
  simp only [strDataAppend] at h
  rcases List.mem_append.mp h with h | h
  · exact absurd h (by decide)
  rcases List.mem_append.mp h with h | h
  · exact absurd (intToStringAscii p.health _ h) (by decide)
  rcases List.mem_append.mp h with h | h
  · exact absurd h (by decide)
  rcases List.mem_append.mp h with h | h
  · exact absurd (intToStringAscii p.maxHealth _ h) (by decide)
  · exact absurd h (by decide)

theorem neHealthAux (p : PlayerInfo) (lit : String) (hlen : 6 ≤ lit.data.length)
    (hne : lit.data.take 6 ≠ ("  • 生命值: ").data.take 6) :
    ∀ u, (lit ++ u) ≠ healthLine p := by
  intro u
  unfold healthLine
  exact appendNeOfTakeNe lit _ u _ 6 hlen (by decide) hne

theorem healthNotMemBasic (p : PlayerInfo) (cfg : Config) :
    healthLine p ∉ basicInfo p cfg := fun h =>
  (basicInfoAll p cfg (fun s => s ≠ healthLine p)
    (neHealthAux p _ (by decide) (by decide)) (neHealthAux p _ (by decide) (by decide))
    (neHealthAux p _ (by decide) (by decide)) (neHealthAux p _ (by decide) (by decide))
    (neHealthAux p _ (by decide) (by decide)) (neHealthAux p _ (by decide) (by decide))
    (neHealthAux p _ (by decide) (by decide)) (healthLine p) h) rfl

theorem healthNotMemExp (p : PlayerInfo) (cfg : Config) :
    healthLine p ∉ expInfo p cfg := fun h =>
  (expInfoAll p cfg (fun s => s ≠ healthLine p)
    (neHealthAux p _ (by decide) (by decide)) (neHealthAux p _ (by decide) (by decide))
    (neHealthAux p _ (by decide) (by decide)) (neHealthAux p _ (by decide) (by decide))
    (healthLine p) h) rfl

theorem healthNotMemPos (p : PlayerInfo) (cfg : Config) :
    healthLine p ∉ posInfo p cfg := fun h =>
  (posInfoAll p cfg (fun s => s ≠ healthLine p)
    (neHealthAux p _ (by decide) (by decide)) (neHealthAux p _ (by decide) (by decide))
    (neHealthAux p _ (by decide) (by decide)) (neHealthAux p _ (by decide) (by decide))
    (neHealthAux p _ (by decide) (by decide)) (neHealthAux p _ (by decide) (by decide))
    (healthLine p) h) rfl

theorem healthNotMemEnv (p : PlayerInfo) (cfg : Config) :
    healthLine p ∉ envInfo p cfg := fun h =>
  (envInfoAll p cfg (fun s => s ≠ healthLine p)
    (neHealthAux p _ (by decide) (by decide)) (neHealthAux p _ (by decide) (by decide))
    (healthLine p) h) rfl

theorem healthNotMemDevice (p : PlayerInfo) (cfg : Config) :
    healthLine p ∉ deviceInfo p cfg := fun h =>
  (deviceInfoAll p cfg (fun s => s ≠ healthLine p)
    (neHealthAux p _ (by decide) (by decide)) (neHealthAux p _ (by decide) (by decide))
    (neHealthAux p _ (by decide) (by decide)) (neHealthAux p _ (by decide) (by decide))
    (neHealthAux p _ (by decide) (by decide)) (neHealthAux p _ (by decide) (by decide))
    (neHealthAux p _ (by decide) (by decide)) (neHealthAux p _ (by decide) (by decide))
    (neHealthAux p _ (by decide) (by decide)) (healthLine p) h) rfl

theorem healthNotMemItem (p : PlayerInfo) (cfg : Config) :
    healthLine p ∉ itemInfo p cfg := fun h =>
  (itemInfoAll p cfg (fun s => s ≠ healthLine p)
    (neHealthAux p _ (by decide) (by decide)) (neHealthAux p _ (by decide) (by decide))
    (neHealthAux p _ (by decide) (by decide)) (neHealthAux p _ (by decide) (by decide))
    (healthLine p) h) rfl

theorem healthLineGameIff (p : PlayerInfo) (cfg : Config) :
    healthLine p ∈ gameStatus p cfg ↔
      (isFieldEnabled cfg "health" && isFieldEnabled cfg "maxHealth") = true := by
  constructor
  · intro h
    unfold gameStatus at h
    simp only [List.mem_append] at h
    rcases h with (((h | h) | h) | h)
    · obtain ⟨-, he⟩ := (memPushIf _ _ _).mp h
      exact absurd he.symm (neHealthAux p _ (by decide) (by decide) _)
    · exact ((memPushIf _ _ _).mp h).1
    · obtain ⟨-, he⟩ := (memPushIf _ _ _).mp h
      exact absurd he.symm (neHealthAux p _ (by decide) (by decide) _)
    · obtain ⟨-, he⟩ := (memPushIf _ _ _).mp h
      exact absurd he.symm (neHealthAux p _ (by decide) (by decide) _)
  · intro hc
    unfold gameStatus
    simp only [List.mem_append]
    exact Or.inl (Or.inl (Or.inr ((memPushIf _ _ _).mpr ⟨hc, rfl⟩)))

theorem neHealthItemAux (p : PlayerInfo) (lit : String) (hlen : 2 ≤ lit.data.length)
    (hne : lit.data.take 2 ≠ ("[生命值: ❤️ ").data.take 2) :
    ∀ u, (lit ++ u) ≠ healthItem p := by
  intro u
  unfold healthItem
  exact appendNeOfTakeNe lit _ u _ 2 hlen (by decide) hne

theorem healthItemGameIff (p : PlayerInfo) (cfg : Config) :
    healthItem p ∈ gameStatusItems p cfg ↔
      (isFieldEnabled cfg "health" && isFieldEnabled cfg "maxHealth") = true := by
  constructor
  · intro h
    unfold gameStatusItems at h
    simp only [List.mem_append] at h
    rcases h with (((h | h) | h) | h)
    · obtain ⟨-, he⟩ := (memPushIf _ _ _).mp h
      exact absurd he.symm (neHealthItemAux p _ (by decide) (by decide) _)
    · exact ((memPushIf _ _ _).mp h).1
    · obtain ⟨-, he⟩ := (memPushIf _ _ _).mp h
      exact absurd he.symm (neHealthItemAux p _ (by decide) (by decide) _)
    · obtain ⟨-, he⟩ := (memPushIf _ _ _).mp h
      exact absurd he.symm (neHealthItemAux p _ (by decide) (by decide) _)
  · intro hc
    unfold gameStatusItems
    simp only [List.mem_append]
    exact Or.inl (Or.inl (Or.inr ((memPushIf _ _ _).mpr ⟨hc, rfl⟩)))

/-- C10: the joint health line/item showing `health/maxHealth` is rendered
iff both the `health` and the `maxHealth` paths are enabled — disabling
either one removes the whole line from the text lines; the corresponding
markup item obeys the same conjunction and, when present, its game-status
panel is emitted. -/
theorem C10_health_pair (p : PlayerInfo) (cfg : Config) (label : String) (th : TypstTheme) :
    (healthLine p ∈ gameStatus p cfg ↔
      (isFieldEnabled cfg "health" && isFieldEnabled cfg "maxHealth") = true)
    ∧ (healthLine p ∈ textLines p cfg label ↔
      (isFieldEnabled cfg "health" && isFieldEnabled cfg "maxHealth") = true)
    ∧ (healthItem p ∈ gameStatusItems p cfg ↔
      (isFieldEnabled cfg "health" && isFieldEnabled cfg "maxHealth") = true)
    ∧ ((isFieldEnabled cfg "health" && isFieldEnabled cfg "maxHealth") = true →
        gridPanel th "🎮 游戏状态" (gameStatusItems p cfg) ∈ typstPanels p th cfg) := by
  refine ⟨healthLineGameIff p cfg, ⟨?_, ?_⟩, healthItemGameIff p cfg, ?_⟩
  · intro h
    unfold textLines at h
    rcases List.mem_cons.mp h with h | h
    · exact absurd h.symm (titleNe label p.name _ (userGlyphNotMemHealthLine p))
    rcases List.mem_cons.mp h with h | h
    · exact absurd h (healthLineNeEmpty p)
    simp only [List.mem_append] at h
    rcases h with ((((((h | h) | h) | h) | h) | h) | h)
    · rcases (memTextChunk _ _ _).mp h with ⟨-, h | h | h⟩
      · exact absurd h (neOfHeadNe _ _ ' ' '📋' (healthLineHead p) (by decide) (by decide))
      · exact absurd h (healthNotMemBasic p cfg)
      · exact absurd h (healthLineNeEmpty p)
    · rcases (memTextChunk _ _ _).mp h with ⟨-, h | h | h⟩
      · exact absurd h (neOfHeadNe _ _ ' ' '🎮' (healthLineHead p) (by decide) (by decide))
      · exact (healthLineGameIff p cfg).mp h
      · exact absurd h (healthLineNeEmpty p)
    · rcases (memTextChunk _ _ _).mp h with ⟨-, h | h | h⟩
      · exact absurd h (neOfHeadNe _ _ ' ' '⭐' (healthLineHead p) (by decide) (by decide))
      · exact absurd h (healthNotMemExp p cfg)
      · exact absurd h (healthLineNeEmpty p)
    · rcases (memTextChunk _ _ _).mp h with ⟨-, h | h | h⟩
      · exact absurd h (neOfHeadNe _ _ ' ' '📍' (healthLineHead p) (by decide) (by decide))
      · exact absurd h (healthNotMemPos p cfg)
      · exact absurd h (healthLineNeEmpty p)
    · rcases (memTextChunk _ _ _).mp h with ⟨-, h | h | h⟩
      · exact absurd h (neOfHeadNe _ _ ' ' '🌍' (healthLineHead p) (by decide) (by decide))
      · exact absurd h (healthNotMemEnv p cfg)
      · exact absurd h (healthLineNeEmpty p)
    · rcases (memTextChunk _ _ _).mp h with ⟨-, h | h | h⟩
      · exact absurd h (neOfHeadNe _ _ ' ' '📱' (healthLineHead p) (by decide) (by decide))
      · exact absurd h (healthNotMemDevice p cfg)
      · exact absurd h (healthLineNeEmpty p)
    · rcases (memItemChunk _ _ _).mp h with ⟨-, h | h⟩
      · exact absurd h (neOfHeadNe _ _ ' ' '🎒' (healthLineHead p) (by decide) (by decide))
      · exact absurd h (healthNotMemItem p cfg)
  · intro hc
    have hmem := (healthLineGameIff p cfg).mpr hc
    unfold textLines
    refine List.mem_cons_of_mem _ (List.mem_cons_of_mem _ ?_)
    simp only [List.mem_append]
    exact Or.inl (Or.inl (Or.inl (Or.inl (Or.inl (Or.inr
      ((memTextChunk _ _ _).mpr ⟨List.ne_nil_of_mem hmem, Or.inr (Or.inl hmem)⟩))))))
  · intro hc
    exact (gamePanelIff p th cfg).mpr
      (List.ne_nil_of_mem ((healthItemGameIff p cfg).mpr hc))

theorem C10_health_pair_witness :
    gridPanel wTheme "🎮 游戏状态" (gameStatusItems wPlayer wCfg) ∈
      typstPanels wPlayer wTheme wCfg :=
  (C10_health_pair wPlayer wCfg "L" wTheme).2.2.2 (by decide)

/-! ## Occurrence of a substring (used to trace every escaped embedding) -/

/-- `x` occurs in `s` as a contiguous substring. -/
def strContains (s x : String) : Prop := ∃ a b, s = a ++ (x ++ b)

theorem strDataEmpty : ("" : String).data = [] := rfl

theorem strNilAppend (a : String) : "" ++ a = a := by
  apply strExt
  rw [strDataAppend, strDataEmpty]
  rfl

theorem containsMid (a x b : String) : strContains (a ++ (x ++ b)) x := ⟨a, b, rfl⟩

theorem containsTrans (s x y : String) (h1 : strContains s x) (h2 : strContains x y) :
    strContains s y := by
  obtain ⟨a, b, rfl⟩ := h1
  obtain ⟨c, d, rfl⟩ := h2
  refine ⟨a ++ c, d ++ b, ?_⟩
  apply strExt
  simp only [strDataAppend, List.append_assoc]

theorem containsAppendRight (s t x : String) (h : strContains t x) :
    strContains (s ++ t) x := by
  obtain ⟨a, b, rfl⟩ := h
  refine ⟨s ++ a, b, ?_⟩
  apply strExt
  simp only [strDataAppend, List.append_assoc]

/-- A member of a joined list occurs in the join. -/
theorem joinSepContains (sep : String) (l : List String) (x : String) (h : x ∈ l) :
    strContains (joinSep sep l) x := by
  induction l with
  | nil => simp at h
  | cons a t ih =>
    cases t with
    | nil =>
      simp only [List.mem_singleton] at h
      subst h
      refine ⟨"", "", ?_⟩
      rw [strAppendEmpty, strNilAppend]
      rfl
    | cons b t2 =>
      rcases List.mem_cons.mp h with rfl | h2
      · refine ⟨"", sep ++ joinSep sep (b :: t2), ?_⟩
        show (x ++ sep) ++ joinSep sep (b :: t2) = "" ++ (x ++ (sep ++ joinSep sep (b :: t2)))
        apply strExt
        simp only [strDataAppend, strDataEmpty, List.append_assoc, List.nil_append]
      · show strContains ((a ++ sep) ++ joinSep sep (b :: t2)) x
        exact containsAppendRight (a ++ sep) _ x (ih h2)

/-! ## Where each escaped upstream string sits in the two documents -/

theorem footerContainsTs (th : TypstTheme) (ts : String) :
    strContains (footerBlock th ts) (escapeTypstText ts) := by
  refine ⟨"#align(center)[\n  #text(size: 8pt, fill: "
    ++ (th.statsText ++ ")[\n    Generated by serverinfo-rest-client · "), "\n  ]\n]\n", ?_⟩
  unfold footerBlock
  simp only [strAssoc]

theorem successContainsLabel (p : PlayerInfo) (th : TypstTheme) (cfg : Config)
    (label ts : String) :
    strContains (successTypst p th cfg label ts) (escapeTypstText label) := by
  refine ⟨pageSet "450pt" th ++ (textSet th ++ headerPre th),
    " 👤 " ++ (escapeTypstText p.name ++ ("\n    ]\n    " ++ (flagsPart th (typstFlags p cfg)
      ++ ("\n  ]\n]\n\n#v(8pt)\n\n" ++ (joinSep "\n\n#v(6pt)\n\n" (typstPanels p th cfg)
        ++ ("\n\n#v(8pt)\n\n" ++ footerBlock th ts)))))), ?_⟩
  unfold successTypst
  simp only [strAssoc]

theorem successContainsName (p : PlayerInfo) (th : TypstTheme) (cfg : Config)
    (label ts : String) :
    strContains (successTypst p th cfg label ts) (escapeTypstText p.name) := by
  refine ⟨pageSet "450pt" th ++ (textSet th ++ (headerPre th
      ++ (escapeTypstText label ++ " 👤 "))),
    "\n    ]\n    " ++ (flagsPart th (typstFlags p cfg)
      ++ ("\n  ]\n]\n\n#v(8pt)\n\n" ++ (joinSep "\n\n#v(6pt)\n\n" (typstPanels p th cfg)
        ++ ("\n\n#v(8pt)\n\n" ++ footerBlock th ts)))), ?_⟩
  unfold successTypst
  simp only [strAssoc]

theorem successContainsTs (p : PlayerInfo) (th : TypstTheme) (cfg : Config)
    (label ts : String) :
    strContains (successTypst p th cfg label ts) (escapeTypstText ts) := by
  refine containsTrans _ (footerBlock th ts) _ ⟨pageSet "450pt" th
    ++ (textSet th ++ successMid p th cfg label), "", ?_⟩ (footerContainsTs th ts)
  rw [successTypstDecomp, strAppendEmpty]
  simp only [strAssoc]

theorem successContainsPanels (p : PlayerInfo) (th : TypstTheme) (cfg : Config)
    (label ts : String) :
    strContains (successTypst p th cfg label ts)
      (joinSep "\n\n#v(6pt)\n\n" (typstPanels p th cfg)) := by
  refine ⟨pageSet "450pt" th ++ (textSet th ++ (headerPre th ++ (escapeTypstText label
      ++ (" 👤 " ++ (escapeTypstText p.name ++ ("\n    ]\n    "
        ++ (flagsPart th (typstFlags p cfg) ++ "\n  ]\n]\n\n#v(8pt)\n\n"))))))),
    "\n\n#v(8pt)\n\n" ++ footerBlock th ts, ?_⟩
  unfold successTypst
  simp only [strAssoc]

theorem successContainsPanelMem (p : PlayerInfo) (th : TypstTheme) (cfg : Config)
    (label ts panel : String) (hp : panel ∈ typstPanels p th cfg) :
    strContains (successTypst p th cfg label ts) panel :=
  containsTrans _ _ _ (successContainsPanels p th cfg label ts)
    (joinSepContains _ _ _ hp)

theorem tablePanelContainsRow (th : TypstTheme) (hd : String) (rows : List String)
    (row : String) (h : row ∈ rows) : strContains (tablePanel th hd rows) row := by
  refine containsTrans _ (joinSep "\n    " rows) _ ⟨panelPre th
    ++ (hd ++ "]\n  #v(6pt)\n  #table(\n    columns: (auto, 1fr),\n    stroke: none,\n    row-gutter: 4pt,\n    "),
    "\n  )\n]", ?_⟩ (joinSepContains _ _ _ h)
  unfold tablePanel
  simp only [strAssoc]

theorem successContainsBasicRow (p : PlayerInfo) (th : TypstTheme) (cfg : Config)
    (label ts row : String) (h : row ∈ basicInfoRows p cfg) :
    strContains (successTypst p th cfg label ts) row :=
  containsTrans _ _ _
    (successContainsPanelMem p th cfg label ts _
      ((basicPanelIff p th cfg).mpr (List.ne_nil_of_mem h)))
    (tablePanelContainsRow th _ _ row h)

theorem successContainsEnvRow (p : PlayerInfo) (th : TypstTheme) (cfg : Config)
    (label ts row : String) (h : row ∈ envInfoRows p cfg) :
    strContains (successTypst p th cfg label ts) row :=
  containsTrans _ _ _
    (successContainsPanelMem p th cfg label ts _
      ((envPanelIff p th cfg).mpr (List.ne_nil_of_mem h)))
    (tablePanelContainsRow th _ _ row h)

theorem successContainsDeviceRow (p : PlayerInfo) (th : TypstTheme) (cfg : Config)
    (label ts row : String) (h : row ∈ deviceInfoRows p cfg) :
    strContains (successTypst p th cfg label ts) row :=
  containsTrans _ _ _
    (successContainsPanelMem p th cfg label ts _
      ((devicePanelIff p th cfg).mpr (List.ne_nil_of_mem h)))
    (tablePanelContainsRow th _ _ row h)

theorem xuidRowMem (p : PlayerInfo) (cfg : Config) (h : isFieldEnabled cfg "xuid" = true) :
    ("[XUID], [#text(size: 9pt)[" ++ (escapeTypstText p.xuid ++ "]],"))
      ∈ basicInfoRows p cfg := by
  unfold basicInfoRows
  simp only [List.mem_append]
  exact Or.inl (Or.inl (Or.inl (Or.inl (Or.inl ((memPushIf _ _ _).mpr ⟨h, rfl⟩)))))

theorem uuidRowMem (p : PlayerInfo) (cfg : Config) (h : isFieldEnabled cfg "uuid" = true) :
    ("[UUID], [#text(size: 9pt)[" ++ (escapeTypstText p.uuid ++ "]],"))
      ∈ basicInfoRows p cfg := by
  unfold basicInfoRows
  simp only [List.mem_append]
  exact Or.inl (Or.inl (Or.inl (Or.inl (Or.inr ((memPushIf _ _ _).mpr ⟨h, rfl⟩)))))

theorem uniqueIdRowMem (p : PlayerInfo) (cfg : Config)
    (h : isFieldEnabled cfg "uniqueId" = true) :
    ("[UniqueId], [#text(size: 9pt)[" ++ (escapeTypstText p.uniqueId ++ "]],"))
      ∈ basicInfoRows p cfg := by
  unfold basicInfoRows
  simp only [List.mem_append]
  exact Or.inl (Or.inl (Or.inl (Or.inr ((memPushIf _ _ _).mpr ⟨h, rfl⟩))))

theorem langCodeRowMem (p : PlayerInfo) (cfg : Config)
    (h : isFieldEnabled cfg "langCode" = true) :
    ("[语言], [" ++ (escapeTypstText p.langCode ++ "],")) ∈ basicInfoRows p cfg := by
  unfold basicInfoRows
  simp only [List.mem_append]
  exact Or.inr ((memPushIf _ _ _).mpr ⟨h, rfl⟩)

theorem biomeRowMem (p : PlayerInfo) (cfg : Config) (b : Biome) (hb : p.biome = some b)
    (h : (isFieldEnabled cfg "biome" || isFieldEnabled cfg "biome.name") = true) :
    ("[生物群系], [" ++ (escapeTypstText (biomeDisplay cfg b) ++ "],"))
      ∈ envInfoRows p cfg := by
  unfold envInfoRows
  simp only [List.mem_append]
  exact Or.inl ((memOptList _ _ _).mpr ⟨b, hb, (memPushIf _ _ _).mpr ⟨h, rfl⟩⟩)

theorem standingOnRowMem (p : PlayerInfo) (cfg : Config) (so : BlockInfo)
    (hso : p.standingOn = some so)
    (h : (isFieldEnabled cfg "standingOn" || isFieldEnabled cfg "standingOn.name") = true) :
    ("[脚下方块], [" ++ (escapeTypstText so.name ++ "],")) ∈ envInfoRows p cfg := by
  unfold envInfoRows
  simp only [List.mem_append]
  exact Or.inr ((memOptList _ _ _).mpr ⟨so, hso, (memPushIf _ _ _).mpr ⟨h, rfl⟩⟩)

theorem deviceRowsOpen (p : PlayerInfo) (cfg : Config) (d : DeviceInfo)
    (hd : p.device = some d) (hdev : isFieldEnabled cfg "device" = true) (row : String)
    (h : row ∈
      pushIf (isFieldEnabled cfg "device.os")
          ("[操作系统], [" ++ (escapeTypstText d.os ++ "],")) ++
        pushIf (isFieldEnabled cfg "device.inputMode")
          ("[输入方式], [" ++ (escapeTypstText (getInputMode d.inputMode) ++ "],")) ++
        pushIf (isFieldEnabled cfg "device.ip")
          ("[IP 地址], [#text(size: 9pt)[" ++ (escapeTypstText d.ip ++ "]],")) ++
        pushIf (isFieldEnabled cfg "device.serverAddress")
          ("[服务器地址], [#text(size: 9pt)[" ++ (escapeTypstText d.serverAddress ++ "]],")) ++
        pushIf (isFieldEnabled cfg "device.avgPing")
          ("[平均延迟], [" ++ (toString d.avgPing ++ "ms],")) ++
        pushIf (isFieldEnabled cfg "device.lastPing")
          ("[最近延迟], [" ++ (toString d.lastPing ++ "ms],")) ++
        pushIf (isFieldEnabled cfg "device.avgPacketLoss")
          ("[平均丢包], [" ++ (toFixed2 d.avgPacketLoss ++ "%],"))) :
    row ∈ deviceInfoRows p cfg := by
  unfold deviceInfoRows
  rw [hdev, if_pos rfl]
  exact (memOptList _ _ _).mpr ⟨d, hd, h⟩

theorem osRowMem (p : PlayerInfo) (cfg : Config) (d : DeviceInfo)
    (hd : p.device = some d) (hdev : isFieldEnabled cfg "device" = true)
    (h : isFieldEnabled cfg "device.os" = true) :
    ("[操作系统], [" ++ (escapeTypstText d.os ++ "],")) ∈ deviceInfoRows p cfg := by
  refine deviceRowsOpen p cfg d hd hdev _ ?_
  simp only [List.mem_append]
  exact Or.inl (Or.inl (Or.inl (Or.inl (Or.inl (Or.inl ((memPushIf _ _ _).mpr ⟨h, rfl⟩))))))

theorem ipRowMem (p : PlayerInfo) (cfg : Config) (d : DeviceInfo)
    (hd : p.device = some d) (hdev : isFieldEnabled cfg "device" = true)
    (h : isFieldEnabled cfg "device.ip" = true) :
    ("[IP 地址], [#text(size: 9pt)[" ++ (escapeTypstText d.ip ++ "]],"))
      ∈ deviceInfoRows p cfg := by
  refine deviceRowsOpen p cfg d hd hdev _ ?_
  simp only [List.mem_append]
  exact Or.inl (Or.inl (Or.inl (Or.inl (Or.inr ((memPushIf _ _ _).mpr ⟨h, rfl⟩)))))

theorem serverAddressRowMem (p : PlayerInfo) (cfg : Config) (d : DeviceInfo)
    (hd : p.device = some d) (hdev : isFieldEnabled cfg "device" = true)
    (h : isFieldEnabled cfg "device.serverAddress" = true) :
    ("[服务器地址], [#text(size: 9pt)[" ++ (escapeTypstText d.serverAddress ++ "]],"))
      ∈ deviceInfoRows p cfg := by
  refine deviceRowsOpen p cfg d hd hdev _ ?_
  simp only [List.mem_append]
  exact Or.inl (Or.inl (Or.inl (Or.inr ((memPushIf _ _ _).mpr ⟨h, rfl⟩))))

theorem notFoundContainsLabel (q : String) (th : TypstTheme) (label ts : String) :
    strContains (notFoundTypst q th label ts) (escapeTypstText label) := by
  refine ⟨pageSet "400pt" th ++ (textSet th ++ headerPre th),
    " 👤 玩家查询\n    ]\n  ]\n]\n\n#v(8pt)\n\n#block(\n  fill: "
      ++ (th.panelFill ++ (",\n  stroke: 1pt + " ++ (th.panelStroke
        ++ (",\n  radius: 4pt,\n  inset: 12pt,\n  width: 100%\n)[\n  #align(center)[\n    #text(size: 12pt)[❌ 未找到玩家: "
          ++ (escapeTypstText q ++ ("]\n  ]\n]\n\n#v(8pt)\n\n" ++ footerBlock th ts)))))), ?_⟩
  unfold notFoundTypst
  simp only [strAssoc]

theorem notFoundContainsTs (q : String) (th : TypstTheme) (label ts : String) :
    strContains (notFoundTypst q th label ts) (escapeTypstText ts) := by
  refine containsTrans _ (footerBlock th ts) _ ⟨pageSet "400pt" th
    ++ (textSet th ++ notFoundMid q th label), "", ?_⟩ (footerContainsTs th ts)
  rw [notFoundTypstDecomp, strAppendEmpty]
  simp only [strAssoc]

/-! ## Claim C8 -/

/-- C8: inverting the escaping rules recovers any input free of the three
collapsed whitespace characters; every escaped string is well-escaped (no
unescaped occurrence of the eleven specials); and every upstream string
the markup formatter embeds — decoration label, player name, timestamp,
xuid, uuid, uniqueId, langCode, biome display, standing-block name,
device os/ip/server address, and (in the not-found document) the query —
occurs in the document only through `escapeTypstText`. -/
theorem C8_escape_invertible :
    (∀ s : String, (∀ c ∈ s.data, c ≠ '\n' ∧ c ≠ '\r' ∧ c ≠ '\t') →
        unescapeTypst (escapeTypstText s) = s)
    ∧ (∀ s : String, wellEscapedB (escapeTypstText s).data = true)
    ∧ (∀ (p : PlayerInfo) (th : TypstTheme) (cfg : Config) (label ts : String),
        strContains (successTypst p th cfg label ts) (escapeTypstText label)
        ∧ strContains (successTypst p th cfg label ts) (escapeTypstText p.name)
        ∧ strContains (successTypst p th cfg label ts) (escapeTypstText ts)
        ∧ (isFieldEnabled cfg "xuid" = true →
            strContains (successTypst p th cfg label ts) (escapeTypstText p.xuid))
        ∧ (isFieldEnabled cfg "uuid" = true →
            strContains (successTypst p th cfg label ts) (escapeTypstText p.uuid))
        ∧ (isFieldEnabled cfg "uniqueId" = true →
            strContains (successTypst p th cfg label ts) (escapeTypstText p.uniqueId))
        ∧ (isFieldEnabled cfg "langCode" = true →
            strContains (successTypst p th cfg label ts) (escapeTypstText p.langCode))
        ∧ (∀ b, p.biome = some b →
            (isFieldEnabled cfg "biome" || isFieldEnabled cfg "biome.name") = true →
            strContains (successTypst p th cfg label ts)
              (escapeTypstText (biomeDisplay cfg b)))
        ∧ (∀ so, p.standingOn = some so →
            (isFieldEnabled cfg "standingOn" || isFieldEnabled cfg "standingOn.name") = true →
            strContains (successTypst p th cfg label ts) (escapeTypstText so.name))
        ∧ (∀ d, p.device = some d → isFieldEnabled cfg "device" = true →
            (isFieldEnabled cfg "device.os" = true →
              strContains (successTypst p th cfg label ts) (escapeTypstText d.os))
            ∧ (isFieldEnabled cfg "device.ip" = true →
              strContains (successTypst p th cfg label ts) (escapeTypstText d.ip))
            ∧ (isFieldEnabled cfg "device.serverAddress" = true →
              strContains (successTypst p th cfg label ts)
                (escapeTypstText d.serverAddress))))
    ∧ (∀ (q : String) (th : TypstTheme) (label ts : String),
        strContains (notFoundTypst q th label ts) (escapeTypstText q)
        ∧ strContains (notFoundTypst q th label ts) (escapeTypstText label)
        ∧ strContains (notFoundTypst q th label ts) (escapeTypstText ts)) := by
  refine ⟨?_, ?_, ?_, ?_⟩
  · intro s hs
    rw [escapeTypstTextEq, unescapeTypstEq, strMkData, unescapeLEscapeL s.data hs]
  · intro s
    rw [escapeTypstTextData]
    exact wellEscapedEscapeL s.data
  · intro p th cfg label ts
    refine ⟨successContainsLabel p th cfg label ts, successContainsName p th cfg label ts,
      successContainsTs p th cfg label ts, ?_, ?_, ?_, ?_, ?_, ?_, ?_⟩
    · intro h
      exact containsTrans _ _ _
        (successContainsBasicRow p th cfg label ts _ (xuidRowMem p cfg h))
        (containsMid _ _ _)
    · intro h
      exact containsTrans _ _ _
        (successContainsBasicRow p th cfg label ts _ (uuidRowMem p cfg h))
        (containsMid _ _ _)
    · intro h
      exact containsTrans _ _ _
        (successContainsBasicRow p th cfg label ts _ (uniqueIdRowMem p cfg h))
        (containsMid _ _ _)
    · intro h
      exact containsTrans _ _ _
        (successContainsBasicRow p th cfg label ts _ (langCodeRowMem p cfg h))
        (containsMid _ _ _)
    · intro b hb h
      exact containsTrans _ _ _
        (successContainsEnvRow p th cfg label ts _ (biomeRowMem p cfg b hb h))
        (containsMid _ _ _)
    · intro so hso h
      exact containsTrans _ _ _
        (successContainsEnvRow p th cfg label ts _ (standingOnRowMem p cfg so hso h))
        (containsMid _ _ _)
    · intro d hd hdev
      refine ⟨?_, ?_, ?_⟩
      · intro h
        exact containsTrans _ _ _
          (successContainsDeviceRow p th cfg label ts _ (osRowMem p cfg d hd hdev h))
          (containsMid _ _ _)
      · intro h
        exact containsTrans _ _ _
          (successContainsDeviceRow p th cfg label ts _ (ipRowMem p cfg d hd hdev h))
          (containsMid _ _ _)
      · intro h
        exact containsTrans _ _ _
          (successContainsDeviceRow p th cfg label ts _
            (serverAddressRowMem p cfg d hd hdev h))
          (containsMid _ _ _)
  · intro q th label ts
    exact ⟨notFoundTypstSplit q th label ts, notFoundContainsLabel q th label ts,
      notFoundContainsTs q th label ts⟩

def wDevice : DeviceInfo :=
  { ip := "1.2.3.4", os := "Android", clientId := "c", inputMode := 2,
    serverAddress := "srv", avgPing := 42, avgPacketLoss := 123,
    lastPing := 40, lastPacketLoss := 50 }

def wPlayerFull : PlayerInfo :=
  { wPlayer with
      biome := some { id := 1, name := "plains" },
      standingOn := some { type := "stone", name := "Stone" },
      device := some wDevice }

theorem C8_escape_invertible_witness :
    unescapeTypst (escapeTypstText "a[b]#c$d*e_f<g>h@\\") = "a[b]#c$d*e_f<g>h@\\"
    ∧ wellEscapedB (escapeTypstText "x[y").data = true
    ∧ strContains (successTypst wPlayerFull wTheme wCfg "L" "t")
        (escapeTypstText wPlayerFull.xuid)
    ∧ strContains (successTypst wPlayerFull wTheme wCfg "L" "t")
        (escapeTypstText wDevice.os)
    ∧ strContains (notFoundTypst "q" wTheme "L" "t") (escapeTypstText "q") :=
  ⟨C8_escape_invertible.1 _ (by decide),
   C8_escape_invertible.2.1 _,
   (C8_escape_invertible.2.2.1 wPlayerFull wTheme wCfg "L" "t").2.2.2.1 (by decide),
   ((C8_escape_invertible.2.2.1 wPlayerFull wTheme wCfg "L" "t").2.2.2.2.2.2.2.2.2
     wDevice rfl (by decide)).1 (by decide),
   (C8_escape_invertible.2.2.2 "q" wTheme "L" "t").1⟩

end ServerinfoRest
